import Mathlib

/-!
Verification of `extract_dump.py` (socios-brasil): a shallow embedding of the
fixed-width-record extraction pipeline — line decoding (`parse_row`), the
per-record-type business transforms (`transform_empresa`, `transform_socio`,
`transform_cnae_secundaria`, `clear_company_name`, `clear_email`) and the
stream dispatcher (`extract_files`) — together with theorems settling the
specification claims about it.

Python strings become `String`, dict rows become association lists with
dict-update semantics (`Row`), Python exceptions become `Except` errors:
`ParsingError` for record-level decode failures and `TErr` for the
exceptions a transform can raise (ValueError, AssertionError, IndexError,
KeyError, AttributeError, TypeError), which the dispatcher does not catch.
-/

namespace SociosBrasil

/-! ## Python string primitives -/

/-- Python `line.replace("\x00", " ").replace("\x02", " ")`:
control sentinel bytes are turned into spaces. -/
def replaceCtl (s : String) : String :=
  String.mk (s.toList.map (fun c => if c = '\x00' ∨ c = '\x02' then ' ' else c))

/-- Python slicing `s[a:b]` for `0 ≤ a`, `0 ≤ b`: clipped to the string,
never an error. -/
def pySlice (s : String) (a b : Nat) : String :=
  String.mk ((s.toList.drop a).take (b - a))

/-- Python `s[-n:]`: the last `n` characters (the whole string when shorter). -/
def takeRight (s : String) (n : Nat) : String :=
  String.mk (s.toList.drop (s.toList.length - n))

/-- Drop leading whitespace characters. -/
def stripLeadWs : List Char → List Char
  | [] => []
  | c :: rest => if c.isWhitespace then stripLeadWs rest else c :: rest

/-- Python `str.strip()` with no argument: drop whitespace from both ends. -/
def pyStrip (s : String) : String :=
  String.mk ((stripLeadWs ((stripLeadWs s.toList).reverse)).reverse)

/-- One pass of Python `str.split()`: `cur` holds the reversed characters of
the token being read; whitespace closes the token, and no empty token is
produced. -/
def pySplitGo : List Char → List Char → List String
  | [], cur => if cur.isEmpty then [] else [String.mk cur.reverse]
  | c :: rest, cur =>
    if c.isWhitespace then
      if cur.isEmpty then pySplitGo rest []
      else String.mk cur.reverse :: pySplitGo rest []
    else pySplitGo rest (c :: cur)

/-- Python `str.split()` with no argument: split on whitespace runs,
producing no empty tokens. -/
def pySplit (s : String) : List String :=
  pySplitGo s.toList []

/-- Python `str.upper()` (ASCII). -/
def pyToUpper (s : String) : String :=
  String.mk (s.toList.map Char.toUpper)

/-- Python `str.lower()` (ASCII). -/
def pyToLower (s : String) : String :=
  String.mk (s.toList.map Char.toLower)

/-- Python `s.startswith(pre)`. -/
def pyStartsWith (s pre : String) : Bool :=
  pre.toList.isPrefixOf s.toList

/-- Python `" ".join(words)`-style joining. -/
def pyJoin (sep : String) (l : List String) : String :=
  String.mk (List.intercalate sep.toList (l.map String.toList))

/-- Python `str.isdigit` restricted to ASCII digits: non-empty and all digits. -/
def pyIsDigit (s : String) : Bool :=
  s ≠ "" && s.toList.all (fun c => c.isDigit)

/-- Python `set(s) == set(["0"])` on a string: non-empty and made entirely
of `'0'`. -/
def pyZeroSet (s : String) : Prop :=
  s ≠ "" ∧ s.toList.all (fun c => c = '0') = true

instance (s : String) : Decidable (pyZeroSet s) := by
  unfold pyZeroSet
  infer_instance

/-- Python `repr` of a string as used in the decoder's error message. -/
def pyRepr (s : String) : String :=
  "'" ++ s ++ "'"

/-- Digits of an ASCII-digit list read as a number. -/
def digitsToNat (l : List Char) : Nat :=
  l.foldl (fun acc c => 10 * acc + (c.toNat - 48)) 0

/-- Python `int(s)` on a stripped string: optional sign followed by digits;
`none` models the `ValueError` branch. -/
def pyToInt? (s : String) : Option Int :=
  match s.toList with
  | [] => none
  | '-' :: rest =>
    if rest ≠ [] ∧ rest.all (fun c => c.isDigit) then some (-(digitsToNat rest : Int)) else none
  | '+' :: rest =>
    if rest ≠ [] ∧ rest.all (fun c => c.isDigit) then some ((digitsToNat rest : Int)) else none
  | l =>
    if l.all (fun c => c.isDigit) then some ((digitsToNat l : Int)) else none

/-! ## Values and rows (Python dicts) -/

/-- A decoded field value: text, integer, or Python `None`. -/
inductive Value where
  | vstr (s : String)
  | vint (n : Int)
  | vnull
deriving DecidableEq

/-- How a value renders inside a Python f-string. -/
def Value.toPy : Value → String
  | .vstr s => s
  | .vint n => toString n
  | .vnull => "None"

/-- The exceptions a transform can raise; the dispatcher catches none of
them, so any of these aborts the run. -/
inductive TErr where
  | valueError (msg : String)
  | assertionError
  | indexError
  | attributeError
  | typeError
  | keyError (k : String)
deriving DecidableEq

/-- A decoded record: field name to value, with dict (unique-key) update
semantics via `setV`. -/
abbrev Row := List (String × Value)

/-- Dict lookup `row[k]` as an `Option`. -/
def getV : Row → String → Option Value
  | [], _ => none
  | (k', v) :: rest, k => if k' = k then some v else getV rest k

/-- Dict assignment `row[k] = v`: replaces the first binding of `k`, or
appends a new one. -/
def setV : Row → String → Value → Row
  | [], k, v => [(k, v)]
  | (k', v') :: rest, k, v =>
    if k' = k then (k, v) :: rest else (k', v') :: setV rest k v

/-- Dict deletion `del row[k]` (on unique-key rows). -/
def delV : Row → String → Row
  | [], _ => []
  | (k', v) :: rest, k => if k' = k then delV rest k else (k', v) :: delV rest k

/-- Dict lookup `row[k]` raising `KeyError` when absent. -/
def getE (row : Row) (k : String) : Except TErr Value :=
  match getV row k with
  | some v => Except.ok v
  | none => Except.error (.keyError k)

/-- `.lower()`/`.split()` and similar on a non-string raise `AttributeError`. -/
def asStr (v : Value) : Except TErr String :=
  match v with
  | .vstr s => Except.ok s
  | _ => Except.error .attributeError

/-- Python `words[-1]` on a list: `IndexError` when empty. -/
def pyLast (l : List String) : Except TErr String :=
  match l.getLast? with
  | some w => Except.ok w
  | none => Except.error .indexError

/-- Python `words.pop()`: drop the last element. -/
def pyPop (l : List String) : List String :=
  l.dropLast

/-! ## Layouts and the line decoder -/

/-- One field of a record layout, as produced by `read_header`:
canonical name, declared type (`"A"` text / `"N"` numeric), and the
0-based character span `[start_index, end_index)`. -/
structure FieldDef where
  field_name : String
  type : String
  start_index : Nat
  end_index : Nat
deriving DecidableEq

/-- `ParsingError(line, error)`: the record-level decode failure. It carries
only the (sentinel-replaced) line and a reason string, never a partially
decoded record. -/
structure ParsingError where
  line : String
  error : String
deriving DecidableEq

/-- The date branch of `parse_row` on a non-empty stripped value: reject
anything longer than 8 characters, otherwise insert dashes after the 4th
and 6th characters, mapping the all-zero date to the empty string. -/
def decodeDateField (value : String) : Except String String :=
  if 8 < value.length then Except.error "Wrong date size"
  else
    let v := pySlice value 0 4 ++ "-" ++ pySlice value 4 6 ++ "-" ++ pySlice value 6 8
    Except.ok (if v = "0000-00-00" then "" else v)

/-- Decode one stripped field value per `parse_row`'s per-field rules:
`ok none` means the field is validated (if needed) and dropped, `ok (some v)`
means `v` is stored under the field's name, `error reason` raises
`ParsingError` with that reason. -/
def procField (f : FieldDef) (value : String) : Except String (Option Value) :=
  if f.field_name = "filler" then
    if pyStrip value = "" ∨ pyStrip value = "9999999999999999" then Except.ok none
    else Except.error "Wrong filler"
  else if f.field_name = "tipo_de_registro" ∨ f.field_name = "tipo_do_registro" then
    Except.ok none
  else if f.field_name = "fim" ∨ f.field_name = "fim_registro" ∨
      f.field_name = "fim_de_registro" then
    if pyStrip value = "F" then Except.ok none else Except.error "Wrong end"
  else if f.field_name = "indicador_full_diario" ∨ f.field_name = "tipo_atualizacao" ∨
      f.field_name = "tipo_de_atualizacao" then
    Except.ok none
  else if pyStartsWith f.field_name "data_" ∧ value ≠ "" then
    (decodeDateField value).map (fun s => some (.vstr s))
  else if f.type = "N" ∧ ¬(value.toList.contains '*') then
    if value = "" then Except.ok (some .vnull)
    else
      match pyToInt? value with
      | some n => Except.ok (some (.vint n))
      | none => Except.error ("Cannot convert " ++ pyRepr value ++ " to int")
  else
    Except.ok (some (.vstr value))

/-- The decoding loop of `parse_row` over the layout's fields, on the
already sentinel-replaced line. -/
def parseFields (header : List FieldDef) (line : String) (acc : Row) :
    Except ParsingError Row :=
  match header with
  | [] => Except.ok acc
  | f :: rest =>
    let value := pyStrip (pySlice line f.start_index f.end_index)
    match procField f value with
    | Except.error e => Except.error ⟨line, e⟩
    | Except.ok none => parseFields rest line acc
    | Except.ok (some v) => parseFields rest line (setV acc f.field_name v)

/-- `parse_row(header, line)`: replace control sentinels with spaces, then
slice, strip and decode every field of the layout in order. -/
def parse_row (header : List FieldDef) (line : String) : Except ParsingError Row :=
  parseFields header (replaceCtl line) []

/-! ## Business transforms -/

/-- Fields deleted from every company record before writing. -/
def fields_to_delete : List String :=
  ["codigo_pais", "correio_eletronico", "filler", "nome_pais"]

/-- Fields blanked on a company record enrolled as MEI. -/
def fields_to_clear_if_mei : List String :=
  ["complemento", "ddd_fax", "ddd_telefone_1", "ddd_telefone_2",
   "descricao_tipo_logradouro", "logradouro", "numero"]

/-- `clear_email`: lower-case, drop `/` and `_`; fewer than 3 distinct
characters or a known "no email" idiom becomes `None`, otherwise the
original value is kept. -/
def clear_email (email : String) : Option String :=
  let clean := String.mk ((pyToLower email).toList.filter (fun c => c ≠ '/' ∧ c ≠ '_'))
  if (clean.toList.dedup).length < 3 ∨
      clean ∈ ["nao tem", "n tem", "ntem", "nao possui", "nt"] then none
  else some email

/-- `clear_company_name`: pass all-digit names through; otherwise pop a
trailing 11-digit token, then a trailing `CPF` token, then a trailing `-`
token, each `words[-1]` access raising `IndexError` on an empty list. -/
def clear_company_name (name : String) : Except TErr String := do
  if pyIsDigit name then return name
  let words0 := pySplit name
  let w1 ← pyLast words0
  let words1 := if pyIsDigit w1 ∧ w1.length = 11 then pyPop words0 else words0
  let w2 ← pyLast words1
  let words2 := if pyToUpper w2 = "CPF" then pyPop words1 else words1
  let w3 ← pyLast words2
  let words3 := if w3 = "-" then pyPop words2 else words2
  return pyStrip (pyJoin " " words3)

/-- The MEI-enrolled branch of `transform_empresa`: strip a trailing CPF
from `razao_social` and (non-empty) `nome_fantasia` when their last token is
numeric, then blank every field in `fields_to_clear_if_mei`. -/
def empresaMeiBranch (row : Row) : Except TErr Row := do
  let rsV ← getE row "razao_social"
  let rs ← asStr rsV
  let lastRS ← pyLast (pySplit rs)
  let row ←
    if pyIsDigit lastRS then do
      let cleaned ← clear_company_name rs
      pure (setV row "razao_social" (.vstr cleaned))
    else pure row
  let nfV ← getE row "nome_fantasia"
  let row ←
    match nfV with
    | .vstr s =>
      if s ≠ "" then do
        let lastNF ← pyLast (pySplit s)
        if pyIsDigit lastNF then do
          let cleaned ← clear_company_name s
          pure (setV row "nome_fantasia" (.vstr cleaned))
        else pure row
      else pure row
    | _ => Except.error .attributeError
  return fields_to_clear_if_mei.foldl (fun r f => setV r f (.vstr "")) row

/-- `transform_empresa`: normalize the email, the Simples tax-regime flag
(unknown codes abort with a `ValueError` naming the value and the CNPJ),
blank an all-zero trade name, normalize the MEI flag likewise (redacting
personal fields when enrolled), and finally delete `fields_to_delete`. -/
def transform_empresa (row : Row) : Except TErr (List Row) := do
  let emailV ← getE row "correio_eletronico"
  let emailS ← asStr emailV
  let row := setV row "correio_eletronico"
    (match clear_email emailS with | some e => .vstr e | none => .vnull)
  let simples ← getE row "opcao_pelo_simples"
  let row ←
    if simples = .vstr "" ∨ simples = .vstr "0" ∨ simples = .vstr "6" ∨
        simples = .vstr "8" then
      pure (setV row "opcao_pelo_simples" (.vstr "0"))
    else if simples = .vstr "5" ∨ simples = .vstr "7" then
      pure (setV row "opcao_pelo_simples" (.vstr "1"))
    else do
      let cnpj ← getE row "cnpj"
      Except.error (.valueError
        ("Opção pelo Simples inválida: " ++ simples.toPy ++ " (CNPJ: " ++ cnpj.toPy ++ ")"))
  let nfV ← getE row "nome_fantasia"
  let row ←
    match nfV with
    | .vstr s =>
      pure (if pyZeroSet s then setV row "nome_fantasia" (.vstr "") else row)
    | _ => Except.error .typeError
  let mei ← getE row "opcao_pelo_mei"
  let row ←
    if mei = .vstr "N" ∨ mei = .vstr "" then
      pure (setV row "opcao_pelo_mei" (.vstr "0"))
    else if mei = .vstr "S" then
      empresaMeiBranch (setV row "opcao_pelo_mei" (.vstr "1"))
    else do
      let cnpj ← getE row "cnpj"
      Except.error (.valueError
        ("Opção pelo MEI inválida: " ++ mei.toPy ++ " (CNPJ: " ++ cnpj.toPy ++ ")"))
  return [fields_to_delete.foldl (fun r f => delV r f) row]

/-- `transform_socio`: assert the unknown field is empty and drop it, null
the legal-representative triple on the `CPF INVALIDO` sentinel, blank the
masked partner tax-ID placeholder, and keep only the last 11 characters of
the tax-ID for natural persons (`identificador_de_socio == 2`). -/
def transform_socio (row : Row) : Except TErr (List Row) := do
  let campo ← getE row "campo_desconhecido"
  if campo ≠ .vstr "" then Except.error .assertionError
  let row := delV row "campo_desconhecido"
  let nome ← getE row "nome_representante_legal"
  let row :=
    if nome = .vstr "CPF INVALIDO" then
      setV (setV (setV row "cpf_representante_legal" .vnull)
        "nome_representante_legal" .vnull) "codigo_qualificacao_representante_legal" .vnull
    else row
  let cc ← getE row "cnpj_cpf_do_socio"
  let row :=
    if cc = .vstr "000***000000**" then setV row "cnpj_cpf_do_socio" (.vstr "") else row
  let ident ← getE row "identificador_de_socio"
  let row ←
    if ident = .vint 2 then do
      let v ← getE row "cnpj_cpf_do_socio"
      match v with
      | .vstr s => pure (setV row "cnpj_cpf_do_socio" (.vstr (takeRight s 11)))
      | _ => Except.error .typeError
    else pure row
  return [row]

/-- Python `set(digits) == set(["0"])` on a chunk of 1-character strings:
the chunk is non-empty and made entirely of `'0'`. -/
def pyAllZeros (digits : List Char) : Bool :=
  !digits.isEmpty && digits.all (fun c => c = '0')

/-- One pass of `ipartition(·, 7)`: `cur` holds the reversed characters of
the chunk being filled and `k` its remaining capacity; a full chunk is
emitted and a new one started, and a non-empty final chunk is emitted at the
end of the input. -/
def ipartGo : List Char → List Char → Nat → List (List Char)
  | [], cur, _ => if cur.isEmpty then [] else [cur.reverse]
  | c :: rest, cur, 0 => cur.reverse :: ipartGo rest [c] 6
  | c :: rest, cur, k + 1 => ipartGo rest (c :: cur) k

/-- `ipartition(·, 7)` from `rows.plugins.utils`: consecutive chunks of 7
characters, the last one possibly shorter, all non-empty. -/
def ipartition7 (l : List Char) : List (List Char) :=
  ipartGo l [] 7

/-- `transform_cnae_secundaria`: pop the packed `cnae` field, split it into
7-character chunks, discard all-zero chunks, and emit one copy of the
record per remaining chunk with `cnae` set to that chunk. -/
def transform_cnae_secundaria (row : Row) : Except TErr (List Row) := do
  let cnaeV ← getE row "cnae"
  let s ←
    match cnaeV with
    | .vstr s => pure s
    | _ => Except.error .typeError
  let base := delV row "cnae"
  let cnaes := ((ipartition7 s.toList).filter
    (fun digits => !pyAllZeros digits)).map String.mk
  return cnaes.map (fun cnae => setV base "cnae" (.vstr cnae))

/-! ## The stream dispatcher -/

/-- A run-fatal outcome of processing one line: an empty line
(`line[0]` raises `IndexError`), an unprovisioned record-type tag
(`KeyError`), or an uncaught exception escaping a transform. -/
inductive Fatal where
  | indexError
  | keyError (k : String)
  | transformError (e : TErr)
deriving DecidableEq

/-- The observable dispatcher state: records written per type tag in order,
error-sink entries `(reason, line)` in order, and two close flags kept
separate because the source treats the handles differently. `closed` models
the three close calls the code actually has — `error_fobj.close()`,
`fobj.close()`, `zf.close()` — i.e. the error sink, the input text handle
and the zip archive. `outClosed` records whether any per-type output sink
(`output_writers[row_type]`) was closed: `extract_dump.py` contains no such
call (neither `extract_files` nor `main` ever closes or flushes an output
writer), so no transition of this embedding sets it and it stays at its
initial `false` on every path. -/
structure DState where
  outputs : List (String × Row)
  errors : List (String × String)
  closed : Bool
  outClosed : Bool
deriving DecidableEq

/-- Lookup in one of the tag-keyed registries (`header_definitions`,
`transform_functions`). -/
def lookupA {α : Type} (m : List (String × α)) (k : String) : Option α :=
  (m.find? (fun p => p.1 == k)).map (fun p => p.2)

/-- The per-record-type registries passed to `extract_files`. -/
abbrev HeaderMap := List (String × List FieldDef)

/-- Transform registry: one `transform(record) -> list of records` per tag. -/
abbrev TransformMap := List (String × (Row → Except TErr (List Row)))

/-- What one iteration of the `extract_files` loop does with a line, before
touching the sinks: fatal outcome, or records to write (tagged by type), or
an error-sink entry `(reason, line)` from a caught `ParsingError`. -/
def lineResult (headers : HeaderMap) (transforms : TransformMap) (line : String) :
    Except Fatal ((String × List Row) ⊕ (String × String)) :=
  match line.toList with
  | [] => Except.error .indexError
  | c :: _ =>
    let row_type := String.singleton c
    match lookupA headers row_type with
    | none => Except.error (.keyError row_type)
    | some header =>
      match parse_row header line with
      | Except.error e => Except.ok (.inr (e.error, e.line))
      | Except.ok row =>
        match lookupA transforms row_type with
        | none => Except.error (.keyError row_type)
        | some tf =>
          match tf row with
          | Except.error te => Except.error (.transformError te)
          | Except.ok rows => Except.ok (.inl (row_type, rows))

/-- One iteration of the loop: route the line's outcome to the sinks, or
abort carrying the state written so far. -/
def extractStep (headers : HeaderMap) (transforms : TransformMap)
    (st : DState) (line : String) : Except (Fatal × DState) DState :=
  match lineResult headers transforms line with
  | Except.error f => Except.error (f, st)
  | Except.ok (.inl (t, rows)) =>
    Except.ok { st with outputs := st.outputs ++ rows.map (fun r => (t, r)) }
  | Except.ok (.inr (err, ln)) =>
    Except.ok { st with errors := st.errors ++ [(err, ln)] }

/-- The `extract_files` loop over the remaining lines. The three close
calls (`error_fobj.close()`, `fobj.close()`, `zf.close()`) follow the loop,
so they run only after it exhausts the stream and an abort leaves those
handles open; the source contains no close call on the output writers, so
no branch touches `outClosed`. -/
def extractLoop (headers : HeaderMap) (transforms : TransformMap)
    (st : DState) : List String → Except (Fatal × DState) DState
  | [] => Except.ok { st with closed := true }
  | l :: ls =>
    match extractStep headers transforms st l with
    | Except.error e => Except.error e
    | Except.ok st' => extractLoop headers transforms st' ls

/-- `extract_files`: process the stream line by line from a fresh state with
open sinks. -/
def extract_files (headers : HeaderMap) (transforms : TransformMap)
    (lines : List String) : Except (Fatal × DState) DState :=
  extractLoop headers transforms
    { outputs := [], errors := [], closed := false, outClosed := false } lines

/-! ## Derived definitions used by the theorems -/

/-- The reason strings a `ParsingError` can carry: wrong filler, wrong end
marker, wrong date length, or a non-numeric value for a numeric field. -/
def reasonOk (r : String) : Prop :=
  r = "Wrong filler" ∨ r = "Wrong end" ∨ r = "Wrong date size" ∨
    ∃ w, r = "Cannot convert " ++ pyRepr w ++ " to int"

/-- Modelled from the spec: the layout file `headers/cnae-secundaria.csv`
read by `main` is not under the source tree. Per the spec (§2, §4.3, §6) a
secondary-activity record carries the record-type tag, one packed field of
concatenated 7-character activity codes, and the end-of-record marker, in
contiguous spans. -/
def cnaeHeaderModel : List FieldDef :=
  [⟨"tipo_de_registro", "A", 0, 1⟩, ⟨"cnae", "A", 1, 15⟩, ⟨"fim", "A", 15, 16⟩]

/-- Modelled from the spec: the layout file `headers/socio.csv` read by
`main` is not under the source tree. Per the spec (§4.3, §6) a partner
record carries the record-type tag, the always-empty unknown field, the
legal-representative name, the partner tax-ID, the numeric partner-type
discriminator, and the end-of-record marker, in contiguous spans. -/
def socioHeaderModel : List FieldDef :=
  [⟨"tipo_de_registro", "A", 0, 1⟩, ⟨"campo_desconhecido", "A", 1, 3⟩,
   ⟨"nome_representante_legal", "A", 3, 15⟩, ⟨"cnpj_cpf_do_socio", "A", 15, 29⟩,
   ⟨"identificador_de_socio", "N", 29, 30⟩, ⟨"fim", "A", 30, 31⟩]

/-- The end-of-record marker field names recognized by `parse_row`. -/
def isFimName (n : String) : Prop :=
  n = "fim" ∨ n = "fim_registro" ∨ n = "fim_de_registro"

instance (n : String) : Decidable (isFimName n) := by
  unfold isFimName
  infer_instance

/-- The field names `parse_row` treats specially (validated and/or dropped
rather than stored as plain values). -/
def specialNames : List String :=
  ["filler", "tipo_de_registro", "tipo_do_registro", "fim", "fim_registro",
   "fim_de_registro", "indicador_full_diario", "tipo_atualizacao", "tipo_de_atualizacao"]

/-- A field on which `parse_row` can never fail: not a filler, not an
end-of-record marker, not date-prefixed, and not numeric. -/
def benignField (f : FieldDef) : Prop :=
  f.field_name ≠ "filler" ∧ ¬isFimName f.field_name ∧
  pyStartsWith f.field_name "data_" = false ∧ f.type ≠ "N"

instance (f : FieldDef) : Decidable (benignField f) := by
  unfold benignField
  infer_instance

/-- How many records a line contributes to the output sinks. -/
def lineOuts (headers : HeaderMap) (transforms : TransformMap) (line : String) : Nat :=
  match lineResult headers transforms line with
  | Except.ok (.inl (_, rows)) => rows.length
  | _ => 0

/-- How many entries a line contributes to the error sink. -/
def lineErrs (headers : HeaderMap) (transforms : TransformMap) (line : String) : Nat :=
  match lineResult headers transforms line with
  | Except.ok (.inr _) => 1
  | _ => 0

/-- The tail of `transform_empresa`'s run shape after the tax-regime flag
has been normalized into `row2`: blank an all-zero trade name, dispatch on
the MEI flag (entering `empresaMeiBranch` when enrolled), and delete
`fields_to_delete`. -/
def empresaModelTail (row row2 : Row) (nfs : String) (mv : Value) : Except TErr (List Row) :=
  let row3 :=
    if pyZeroSet nfs then setV row2 "nome_fantasia" (.vstr "") else row2
  if mv = .vstr "N" ∨ mv = .vstr "" then
    Except.ok [fields_to_delete.foldl (fun r f => delV r f)
      (setV row3 "opcao_pelo_mei" (.vstr "0"))]
  else if mv = .vstr "S" then
    (empresaMeiBranch (setV row3 "opcao_pelo_mei" (.vstr "1"))).bind
      (fun r => Except.ok [fields_to_delete.foldl (fun rr f => delV rr f) r])
  else
    (getE row "cnpj").bind (fun cnpj => Except.error (.valueError
      ("Opção pelo MEI inválida: " ++ mv.toPy ++ " (CNPJ: " ++ cnpj.toPy ++ ")")))

/-- The run shape of `transform_empresa` on a company record, as a function
of the decoded email, tax-regime flag, trade name and MEI flag; used to
reason about the transform case by case. -/
def empresaModel (row : Row) (em : String) (sv : Value) (nfs : String) (mv : Value) :
    Except TErr (List Row) :=
  let row1 := setV row "correio_eletronico"
    (match clear_email em with | some e => Value.vstr e | none => Value.vnull)
  if sv = .vstr "" ∨ sv = .vstr "0" ∨ sv = .vstr "6" ∨ sv = .vstr "8" then
    empresaModelTail row (setV row1 "opcao_pelo_simples" (.vstr "0")) nfs mv
  else if sv = .vstr "5" ∨ sv = .vstr "7" then
    empresaModelTail row (setV row1 "opcao_pelo_simples" (.vstr "1")) nfs mv
  else
    (getE row "cnpj").bind (fun cnpj => Except.error (.valueError
      ("Opção pelo Simples inválida: " ++ sv.toPy ++ " (CNPJ: " ++ cnpj.toPy ++ ")")))

/-- The run shape of `transform_socio` on a partner record whose unknown
field is empty, as a function of the three decoded values it inspects; used
to reason about the transform case by case. -/
def socioModel (row : Row) (nome cc ident : Value) : Except TErr (List Row) :=
  let row1 := delV row "campo_desconhecido"
  let row2 :=
    if nome = .vstr "CPF INVALIDO" then
      setV (setV (setV row1 "cpf_representante_legal" .vnull)
        "nome_representante_legal" .vnull) "codigo_qualificacao_representante_legal" .vnull
    else row1
  let cc2 := if cc = .vstr "000***000000**" then Value.vstr "" else cc
  let row3 :=
    if cc = .vstr "000***000000**" then setV row2 "cnpj_cpf_do_socio" (.vstr "") else row2
  if ident = .vint 2 then
    match cc2 with
    | .vstr s => Except.ok [setV row3 "cnpj_cpf_do_socio" (.vstr (takeRight s 11))]
    | _ => Except.error .typeError
  else Except.ok [row3]

/-! ## Helper lemmas on rows -/

theorem getV_setV (r : Row) (k k' : String) (v : Value) :
    getV (setV r k v) k' = if k = k' then some v else getV r k' := by
  induction r with
  | nil => by_cases h : k = k' <;> simp [setV, getV, h]
  | cons p rest ih =>
    obtain ⟨k0, v0⟩ := p
    by_cases h0 : k0 = k
    · subst h0
      by_cases h1 : k0 = k' <;> simp [setV, getV, h1]
    · by_cases h1 : k0 = k'
      · subst h1
        have h0' : ¬k = k0 := fun h => h0 h.symm
        simp [setV, getV, h0, h0']
      · simp [setV, getV, h0, h1, ih]

theorem getV_delV (r : Row) (k k' : String) :
    getV (delV r k) k' = if k = k' then none else getV r k' := by
  induction r with
  | nil => by_cases h : k = k' <;> simp [delV, getV, h]
  | cons p rest ih =>
    obtain ⟨k0, v0⟩ := p
    by_cases h0 : k0 = k
    · subst h0
      by_cases h1 : k0 = k'
      · subst h1
        simp [delV, getV, ih]
      · simp [delV, getV, h1, ih]
    · by_cases h1 : k0 = k'
      · subst h1
        have h0' : ¬k = k0 := fun h => h0 h.symm
        simp [delV, getV, h0, h0', ih]
      · simp [delV, getV, h0, h1, ih]

theorem getE_of_getV {r : Row} {k : String} {v : Value} (h : getV r k = some v) :
    getE r k = Except.ok v := by
  simp [getE, h]

theorem getV_ite (c : Prop) [Decidable c] (r1 r2 : Row) (k : String) :
    getV (if c then r1 else r2) k = if c then getV r1 k else getV r2 k := by
  split <;> rfl

/-! ## Helper lemmas on `ipartition7` -/

theorem ipartGo_join : ∀ (l cur : List Char) (k : Nat),
    (ipartGo l cur k).flatten = cur.reverse ++ l := by
  intro l
  induction l with
  | nil =>
    intro cur k
    by_cases h : cur.isEmpty
    · simp [ipartGo, h, List.isEmpty_iff.mp h]
    · simp [ipartGo, h]
  | cons c rest ih =>
    intro cur k
    match k with
    | 0 => simp [ipartGo, ih]
    | k + 1 => simp [ipartGo, ih]

theorem ipartGo_mem : ∀ (l cur : List Char) (k : Nat) (c : List Char),
    c ∈ ipartGo l cur k → cur.length + k = 7 → c ≠ [] ∧ c.length ≤ 7 := by
  intro l
  induction l with
  | nil =>
    intro cur k c hc hinv
    by_cases h : cur.isEmpty
    · simp [ipartGo, h] at hc
    · simp [ipartGo, h] at hc
      subst hc
      refine ⟨by simpa [List.isEmpty_iff] using h, ?_⟩
      simp only [List.length_reverse]
      omega
  | cons c0 rest ih =>
    intro cur k c hc hinv
    match k with
    | 0 =>
      simp only [ipartGo, List.mem_cons] at hc
      rcases hc with rfl | hc
      · constructor
        · intro hnil
          have : cur.length = 0 := by simpa using congrArg List.length hnil
          omega
        · simp only [List.length_reverse]
          omega
      · exact ih [c0] 6 c hc (by simp)
    | k + 1 =>
      simp only [ipartGo] at hc
      exact ih (c0 :: cur) k c hc (by simp; omega)

theorem ipartGo_all (p : Char → Prop) : ∀ (l cur : List Char) (k : Nat) (c : List Char),
    (∀ x ∈ l, p x) → (∀ x ∈ cur, p x) → c ∈ ipartGo l cur k → ∀ x ∈ c, p x := by
  intro l
  induction l with
  | nil =>
    intro cur k c _ hcur hc
    by_cases h : cur.isEmpty
    · simp [ipartGo, h] at hc
    · simp [ipartGo, h] at hc
      subst hc
      simpa using hcur
  | cons c0 rest ih =>
    intro cur k c hl hcur hc
    match k with
    | 0 =>
      simp only [ipartGo, List.mem_cons] at hc
      rcases hc with rfl | hc
      · simpa using hcur
      · exact ih [c0] 6 c (fun x hx => hl x (List.mem_cons_of_mem _ hx))
          (by simpa using hl c0 (List.mem_cons_self _ _)) hc
    | k + 1 =>
      simp only [ipartGo] at hc
      refine ih (c0 :: cur) k c (fun x hx => hl x (List.mem_cons_of_mem _ hx)) ?_ hc
      intro x hx
      rcases List.mem_cons.mp hx with rfl | hx
      · exact hl x (List.mem_cons_self _ _)
      · exact hcur x hx

/-- What `transform_cnae_secundaria` does to a row whose `cnae` field is the
string `s`: one output per non-all-zero chunk, with `cnae` replaced. -/
theorem transform_cnae_eq (row : Row) (s : String)
    (h : getV row "cnae" = some (.vstr s)) :
    transform_cnae_secundaria row =
      Except.ok (((ipartition7 s.toList).filter (fun d => !pyAllZeros d)).map
        (fun c => setV (delV row "cnae") "cnae" (.vstr (String.mk c)))) := by
  simp [transform_cnae_secundaria, getE, h, Bind.bind, Except.bind, pure, Except.pure,
    Function.comp]

/-! ## Helper lemmas on the decoder's failures -/

theorem decodeDateField_error {v e : String} (h : decodeDateField v = Except.error e) :
    e = "Wrong date size" := by
  rw [decodeDateField] at h
  split at h
  · simpa using h.symm
  · simp at h

theorem procField_error_reason {f : FieldDef} {v r : String}
    (h : procField f v = Except.error r) : reasonOk r := by
  rw [procField] at h
  split at h
  · split at h
    · simp at h
    · simp only [Except.error.injEq] at h
      exact Or.inl h.symm
  · split at h
    · simp at h
    · split at h
      · split at h
        · simp at h
        · simp only [Except.error.injEq] at h
          exact Or.inr (Or.inl h.symm)
      · split at h
        · simp at h
        · split at h
          · rcases hd : decodeDateField v with e0 | r0
            · rw [hd] at h
              simp only [Except.map, Except.error.injEq] at h
              exact Or.inr (Or.inr (Or.inl (h.symm.trans (decodeDateField_error hd))))
            · rw [hd] at h
              simp [Except.map] at h
          · split at h
            · split at h
              · simp at h
              · split at h
                · simp at h
                · simp only [Except.error.injEq] at h
                  exact Or.inr (Or.inr (Or.inr ⟨v, h.symm⟩))
            · simp at h

theorem parseFields_error : ∀ (header : List FieldDef) (L : String) (acc : Row)
    (e : ParsingError), parseFields header L acc = Except.error e →
    e.line = L ∧ reasonOk e.error := by
  intro header
  induction header with
  | nil =>
    intro L acc e h
    simp [parseFields] at h
  | cons f rest ih =>
    intro L acc e h
    rw [parseFields] at h
    rcases hp : procField f (pyStrip (pySlice L f.start_index f.end_index)) with r | ov
    · rw [hp] at h
      simp only [Except.error.injEq] at h
      subst h
      exact ⟨rfl, procField_error_reason hp⟩
    · rw [hp] at h
      match ov with
      | none => exact ih L acc e h
      | some v => exact ih L (setV acc f.field_name v) e h

/-! ## Claim C7: what a ParseFailure carries -/

/-- C7 (counterexample): a line consisting of the single control byte
`"\x00"` fails with "Wrong end", but the `ParsingError` carries the
sentinel-replaced line `" "`, not the original raw line `"\x00"` — so the
failure does not carry the line exactly as read. -/
theorem claim_C7_cex :
    parse_row [⟨"fim", "A", 0, 1⟩] "\x00" = Except.error ⟨" ", "Wrong end"⟩ ∧
    (" " : String) ≠ "\x00" :=
  ⟨by rfl, by decide⟩

/-- C7 (amended): every `ParsingError` raised by `parse_row` carries the
line after control-sentinel replacement (NUL and `\x02` turned into
spaces) — identical to the raw line exactly when the line contains neither
sentinel — together with one of the four reason strings (wrong filler,
wrong end marker, wrong date length, non-numeric value); by construction a
`ParsingError` carries no partially decoded record. -/
theorem claim_C7 :
    (∀ (header : List FieldDef) (line : String) (e : ParsingError),
      parse_row header line = Except.error e →
      e.line = replaceCtl line ∧ reasonOk e.error) ∧
    (∀ line : String, (∀ c ∈ line.toList, c ≠ '\x00' ∧ c ≠ '\x02') →
      replaceCtl line = line) := by
  constructor
  · intro header line e h
    exact parseFields_error header (replaceCtl line) [] e h
  · intro line hline
    obtain ⟨l⟩ := line
    have : l.map (fun c => if c = '\x00' ∨ c = '\x02' then ' ' else c) = l := by
      induction l with
      | nil => rfl
      | cons c rest ih =>
        have hc := hline c (by simp [String.toList])
        simp only [List.map_cons]
        rw [if_neg (by simpa using hc), ih]
        intro c' hc'
        exact hline c' (by simp [String.toList]; exact Or.inr hc')
    simpa [replaceCtl] using congrArg String.mk this

/-- C7 (witness): the amended theorem applied to the concrete failing line
`"\x00"` and to a sentinel-free line. -/
theorem claim_C7_witness :
    ((⟨" ", "Wrong end"⟩ : ParsingError).line = replaceCtl "\x00" ∧
      reasonOk (⟨" ", "Wrong end"⟩ : ParsingError).error) ∧
    replaceCtl "abc" = "abc" :=
  ⟨claim_C7.1 [⟨"fim", "A", 0, 1⟩] "\x00" ⟨" ", "Wrong end"⟩ (by rfl),
    claim_C7.2 "abc" (by decide)⟩

/-! ## Claim C2: date-field decoding -/

/-- C2 (counterexample): the decoder accepts a non-empty 7-character date
value (producing `"1234-56-7"`) instead of raising a structural failure, so
"any other length is a structural failure" is false — only lengths above 8
are rejected. -/
theorem claim_C2_cex :
    parse_row [⟨"data_x", "A", 0, 7⟩] "1234567" =
      Except.ok [("data_x", Value.vstr "1234-56-7")] ∧
    ("1234567" : String).length ≠ 8 := by
  exact ⟨by rfl, by decide⟩

/-- C2 (amended): for a date-prefixed field with non-empty trimmed value the
decoder rejects only values longer than 8 characters (reason "Wrong date
size"); any value of length at most 8 is accepted, an 8-character value
other than the all-zero one is reformatted to `YYYY-MM-DD` by inserting
dashes after positions 4 and 6, and the all-zero value `"00000000"` maps to
the empty string. -/
theorem claim_C2 :
    (∀ v : String, 8 < v.length → decodeDateField v = Except.error "Wrong date size") ∧
    (∀ v : String, v.length ≤ 8 → ∃ r, decodeDateField v = Except.ok r) ∧
    (∀ v : String, v.length = 8 → v ≠ "00000000" →
      decodeDateField v =
        Except.ok (pySlice v 0 4 ++ "-" ++ pySlice v 4 6 ++ "-" ++ pySlice v 6 8)) ∧
    decodeDateField "00000000" = Except.ok "" ∧
    parse_row [⟨"data_x", "A", 0, 9⟩] "123456789" =
      Except.error ⟨"123456789", "Wrong date size"⟩ := by
  refine ⟨?_, ?_, ?_, by rfl, by rfl⟩
  · intro v h
    simp [decodeDateField, h]
  · intro v h
    rw [decodeDateField, if_neg (Nat.not_lt.mpr h)]
    exact ⟨_, rfl⟩
  · intro v hlen hne
    obtain ⟨l⟩ := v
    have hl : l.length = 8 := hlen
    rcases l with _ | ⟨a, l⟩; · simp at hl
    rcases l with _ | ⟨b, l⟩; · simp at hl
    rcases l with _ | ⟨c, l⟩; · simp at hl
    rcases l with _ | ⟨d, l⟩; · simp at hl
    rcases l with _ | ⟨e, l⟩; · simp at hl
    rcases l with _ | ⟨f, l⟩; · simp at hl
    rcases l with _ | ⟨g, l⟩; · simp at hl
    rcases l with _ | ⟨h, l⟩; · simp at hl
    rcases l with _ | ⟨i, l⟩
    · have key : ¬(String.mk [a, b, c, d, '-', e, f, '-', g, h] = "0000-00-00") := by
        intro heq
        apply hne
        have hdata : [a, b, c, d, '-', e, f, '-', g, h] = ("0000-00-00" : String).data :=
          congrArg String.data heq
        have hlit : ("0000-00-00" : String).data =
            ['0', '0', '0', '0', '-', '0', '0', '-', '0', '0'] := rfl
        rw [hlit] at hdata
        simp only [List.cons.injEq] at hdata
        obtain ⟨rfl, rfl, rfl, rfl, -, rfl, rfl, -, rfl, rfl, -⟩ := hdata
        rfl
      show Except.ok (if String.mk [a, b, c, d, '-', e, f, '-', g, h] = "0000-00-00" then ""
          else String.mk [a, b, c, d, '-', e, f, '-', g, h]) =
        Except.ok (String.mk [a, b, c, d, '-', e, f, '-', g, h])
      rw [if_neg key]
    · simp at hl

/-- C2 (witness): the amended theorem applied at concrete inputs: a
9-character value is rejected, a 7-character value is accepted, and the
8-character value `"20201231"` becomes `"2020-12-31"`. -/
theorem claim_C2_witness :
    decodeDateField "123456789" = Except.error "Wrong date size" ∧
    (∃ r, decodeDateField "1234567" = Except.ok r) ∧
    decodeDateField "20201231" = Except.ok "2020-12-31" := by
  refine ⟨claim_C2.1 "123456789" (by decide), claim_C2.2.1 "1234567" (by decide), ?_⟩
  exact (claim_C2.2.2.1 "20201231" (by decide) (by decide)).trans (by rfl)

/-! ## Claim C3: secondary-activity expansion -/

/-- C3 (counterexample): on the claim's literal input
`"1234567000000090123450"` (22 characters, so chunks `1234567`, `0000000`,
`9012345`, `0`) the transform emits codes `"1234567"` and `"9012345"`,
not `"1234567"` and `"0123450"` as claimed. -/
theorem claim_C3_cex :
    transform_cnae_secundaria
      [("cnpj", Value.vstr "X"), ("cnae", Value.vstr "1234567000000090123450")] =
      Except.ok
        [[("cnpj", Value.vstr "X"), ("cnae", Value.vstr "1234567")],
         [("cnpj", Value.vstr "X"), ("cnae", Value.vstr "9012345")]] ∧
    ("9012345" : String) ≠ "0123450" := by
  exact ⟨by rfl, by decide⟩

/-- C3 (amended): the transform splits the packed `cnae` value into
consecutive chunks of 7 characters (the last possibly shorter), discards
all-zero chunks, and emits one copy of the record per remaining chunk with
`cnae` replaced by that chunk and every other field unchanged; an all-zero
input expands to zero records; and the literal 22-character input
`"1234567000000090123450"` expands to exactly the two records with codes
`"1234567"` and `"9012345"`. -/
theorem claim_C3 :
    (∀ l : List Char, (ipartition7 l).flatten = l) ∧
    (∀ (l c : List Char), c ∈ ipartition7 l → c ≠ [] ∧ c.length ≤ 7) ∧
    (∀ (row : Row) (s : String), getV row "cnae" = some (.vstr s) →
      (∀ x ∈ s.toList, x = '0') →
      transform_cnae_secundaria row = Except.ok []) ∧
    (∀ (row : Row) (s : String), getV row "cnae" = some (.vstr s) →
      transform_cnae_secundaria row =
        Except.ok (((ipartition7 s.toList).filter (fun d => !pyAllZeros d)).map
          (fun c => setV (delV row "cnae") "cnae" (.vstr (String.mk c))))) ∧
    (∀ (row : Row) (s : String) (out : List Row),
      getV row "cnae" = some (.vstr s) →
      transform_cnae_secundaria row = Except.ok out →
      ∀ r' ∈ out, ∀ k, k ≠ "cnae" → getV r' k = getV row k) ∧
    transform_cnae_secundaria
      [("cnpj", Value.vstr "X"), ("cnae", Value.vstr "1234567000000090123450")] =
      Except.ok
        [[("cnpj", Value.vstr "X"), ("cnae", Value.vstr "1234567")],
         [("cnpj", Value.vstr "X"), ("cnae", Value.vstr "9012345")]] := by
  refine ⟨?_, ?_, ?_, ?_, ?_, by rfl⟩
  · intro l
    simpa using ipartGo_join l [] 7
  · intro l c hc
    exact ipartGo_mem l [] 7 c hc (by simp)
  · intro row s h hall
    rw [transform_cnae_eq row s h]
    have hfil : (ipartition7 s.toList).filter (fun d => !pyAllZeros d) = [] := by
      apply List.filter_eq_nil_iff.mpr
      intro c hc
      have hz : ∀ x ∈ c, x = '0' := ipartGo_all _ s.toList [] 7 c hall (by simp) hc
      have hne : c ≠ [] := (ipartGo_mem s.toList [] 7 c hc (by simp)).1
      simp [pyAllZeros, List.isEmpty_iff, hne]
      intro x hx
      exact hz x hx
    rw [hfil]
    rfl
  · exact fun row s h => transform_cnae_eq row s h
  · intro row s out h heq r' hr' k hk
    rw [transform_cnae_eq row s h] at heq
    have hout := (Except.ok.injEq _ _).mp heq.symm
    subst hout
    obtain ⟨c, _, rfl⟩ := List.mem_map.mp hr'
    rw [getV_setV, if_neg (fun hc => hk hc.symm), getV_delV, if_neg (fun hc => hk hc.symm)]

/-- C3 (witness): the amended theorem applied at concrete inputs: chunking
of a 10-character value, the all-zero 14-character value expanding to zero
records, the general output formula on the literal row, and field sharing
on its first output record. -/
theorem claim_C3_witness :
    (ipartition7 "1234567890".toList).flatten = "1234567890".toList ∧
    transform_cnae_secundaria [("cnae", Value.vstr "00000000000000")] = Except.ok [] ∧
    transform_cnae_secundaria [("cnpj", Value.vstr "X"), ("cnae", Value.vstr "12345671234567")] =
      Except.ok (((ipartition7 "12345671234567".toList).filter (fun d => !pyAllZeros d)).map
        (fun c => setV (delV [("cnpj", Value.vstr "X"), ("cnae", Value.vstr "12345671234567")]
          "cnae") "cnae" (.vstr (String.mk c)))) ∧
    getV [("cnpj", Value.vstr "X"), ("cnae", Value.vstr "1234567")] "cnpj" =
      getV [("cnpj", Value.vstr "X"), ("cnae", Value.vstr "12345671234567")] "cnpj" := by
  refine ⟨claim_C3.1 _, claim_C3.2.2.1 _ "00000000000000" (by rfl) (by decide), ?_, ?_⟩
  · exact claim_C3.2.2.2.1 _ "12345671234567" (by rfl)
  · exact claim_C3.2.2.2.2.1
      [("cnpj", Value.vstr "X"), ("cnae", Value.vstr "12345671234567")] "12345671234567"
      [[("cnpj", Value.vstr "X"), ("cnae", Value.vstr "1234567")],
       [("cnpj", Value.vstr "X"), ("cnae", Value.vstr "1234567")]]
      (by rfl) (by rfl)
      [("cnpj", Value.vstr "X"), ("cnae", Value.vstr "1234567")] (by decide) "cnpj" (by decide)

/-! ## Helper lemmas on the dispatcher loop -/

theorem extractStep_error {h : HeaderMap} {t : TransformMap} {st : DState} {l : String}
    {e : Fatal × DState} (he : extractStep h t st l = Except.error e) : e.2 = st := by
  rw [extractStep] at he
  split at he
  · simp only [Except.error.injEq] at he
    subst he
    rfl
  · simp at he
  · simp at he

theorem extractStep_ok_closed {h : HeaderMap} {t : TransformMap} {st : DState} {l : String}
    {st' : DState} (he : extractStep h t st l = Except.ok st') : st'.closed = st.closed := by
  rw [extractStep] at he
  split at he
  · simp at he
  · simp only [Except.ok.injEq] at he
    subst he
    rfl
  · simp only [Except.ok.injEq] at he
    subst he
    rfl

theorem extractStep_ok_outClosed {h : HeaderMap} {t : TransformMap} {st : DState} {l : String}
    {st' : DState} (he : extractStep h t st l = Except.ok st') :
    st'.outClosed = st.outClosed := by
  rw [extractStep] at he
  split at he
  · simp at he
  · simp only [Except.ok.injEq] at he
    subst he
    rfl
  · simp only [Except.ok.injEq] at he
    subst he
    rfl

theorem extractLoop_ok_outClosed (h : HeaderMap) (t : TransformMap) :
    ∀ (ls : List String) (st st' : DState),
      extractLoop h t st ls = Except.ok st' → st'.outClosed = st.outClosed := by
  intro ls
  induction ls with
  | nil =>
    intro st st' he
    rw [extractLoop] at he
    simp only [Except.ok.injEq] at he
    subst he
    rfl
  | cons l ls ih =>
    intro st st' he
    rw [extractLoop] at he
    rcases hs : extractStep h t st l with e | st1
    · rw [hs] at he
      exact Except.noConfusion he
    · rw [hs] at he
      rw [ih st1 st' he, extractStep_ok_outClosed hs]

theorem extractLoop_error_outClosed (h : HeaderMap) (t : TransformMap) :
    ∀ (ls : List String) (st : DState) (f : Fatal) (st' : DState),
      extractLoop h t st ls = Except.error (f, st') → st'.outClosed = st.outClosed := by
  intro ls
  induction ls with
  | nil =>
    intro st f st' he
    rw [extractLoop] at he
    exact Except.noConfusion he
  | cons l ls ih =>
    intro st f st' he
    rw [extractLoop] at he
    rcases hs : extractStep h t st l with e | st1
    · rw [hs] at he
      simp only [Except.error.injEq] at he
      have h2 : e.2 = st := extractStep_error hs
      rw [he] at h2
      rw [← h2]
    · rw [hs] at he
      rw [ih st1 f st' he, extractStep_ok_outClosed hs]

theorem extractLoop_ok_closed (h : HeaderMap) (t : TransformMap) :
    ∀ (ls : List String) (st st' : DState),
      extractLoop h t st ls = Except.ok st' → st'.closed = true := by
  intro ls
  induction ls with
  | nil =>
    intro st st' he
    rw [extractLoop] at he
    simp only [Except.ok.injEq] at he
    subst he
    rfl
  | cons l ls ih =>
    intro st st' he
    rw [extractLoop] at he
    rcases hs : extractStep h t st l with e | st1
    · rw [hs] at he
      exact Except.noConfusion he
    · rw [hs] at he
      exact ih st1 st' he

theorem extractLoop_error_closed (h : HeaderMap) (t : TransformMap) :
    ∀ (ls : List String) (st : DState) (f : Fatal) (st' : DState),
      extractLoop h t st ls = Except.error (f, st') → st'.closed = st.closed := by
  intro ls
  induction ls with
  | nil =>
    intro st f st' he
    rw [extractLoop] at he
    exact Except.noConfusion he
  | cons l ls ih =>
    intro st f st' he
    rw [extractLoop] at he
    rcases hs : extractStep h t st l with e | st1
    · rw [hs] at he
      simp only [Except.error.injEq] at he
      have h2 : e.2 = st := extractStep_error hs
      rw [he] at h2
      rw [← h2]
    · rw [hs] at he
      rw [ih st1 f st' he, extractStep_ok_closed hs]

theorem extractLoop_counts (h : HeaderMap) (t : TransformMap) :
    ∀ (ls : List String) (st : DState),
      (∀ l ∈ ls, (lineResult h t l).isOk = true) →
      ∃ st', extractLoop h t st ls = Except.ok st' ∧ st'.closed = true ∧
        st'.outputs.length = st.outputs.length + (ls.map (lineOuts h t)).sum ∧
        st'.errors.length = st.errors.length + (ls.map (lineErrs h t)).sum := by
  intro ls
  induction ls with
  | nil =>
    intro st _
    exact ⟨{ st with closed := true }, rfl, rfl, by simp, by simp⟩
  | cons l ls ih =>
    intro st hok
    have hl := hok l (List.mem_cons_self _ _)
    rcases hx : lineResult h t l with f | x
    · rw [hx] at hl
      simp [Except.isOk, Except.toBool] at hl
    · match x with
      | .inl (t0, rows) =>
        have hstep : extractStep h t st l =
            Except.ok { st with outputs := st.outputs ++ rows.map (fun r => (t0, r)) } := by
          rw [extractStep, hx]
        obtain ⟨st', h1, h2, h3, h4⟩ :=
          ih { st with outputs := st.outputs ++ rows.map (fun r => (t0, r)) }
            (fun l' hl' => hok l' (List.mem_cons_of_mem _ hl'))
        refine ⟨st', ?_, h2, ?_, ?_⟩
        · rw [extractLoop, hstep]
          exact h1
        · rw [h3]
          have hlo : lineOuts h t l = rows.length := by
            rw [lineOuts, hx]
          simp [hlo]
          omega
        · rw [h4]
          have hle : lineErrs h t l = 0 := by
            rw [lineErrs, hx]
          simp [hle]
      | .inr err =>
        have hstep : extractStep h t st l =
            Except.ok { st with errors := st.errors ++ [err] } := by
          rw [extractStep, hx]
        obtain ⟨st', h1, h2, h3, h4⟩ :=
          ih { st with errors := st.errors ++ [err] }
            (fun l' hl' => hok l' (List.mem_cons_of_mem _ hl'))
        refine ⟨st', ?_, h2, ?_, ?_⟩
        · rw [extractLoop, hstep]
          exact h1
        · rw [h3]
          have hlo : lineOuts h t l = 0 := by
            rw [lineOuts, hx]
          simp [hlo]
        · rw [h4]
          have hle : lineErrs h t l = 1 := by
            rw [lineErrs, hx]
          simp [hle]
          omega

/-! ## Claim C1: decode-failure isolation -/

/-- C1 (counterexample): with the secondary-activity transform provisioned
at tag `6` (as in `main`), a stream of one malformed line followed by one
line that decodes successfully (N = 1) produces 2 output records — the
transform expands the record into one copy per activity code — and 1 error
entry; so "exactly N output records" is false, although processing does
continue past the malformed first line. -/
theorem claim_C1_cex :
    extract_files [("6", cnaeHeaderModel)] [("6", transform_cnae_secundaria)]
      ["612345678901234X", "612345678901234F"] =
      Except.ok ⟨[("6", [("cnae", Value.vstr "1234567")]),
                  ("6", [("cnae", Value.vstr "8901234")])],
        [("Wrong end", "612345678901234X")], true, false⟩ ∧
    (extract_files [("6", cnaeHeaderModel)] [("6", transform_cnae_secundaria)]
      ["612345678901234X", "612345678901234F"]).toOption.map
        (fun st => (st.outputs.length, st.errors.length)) = some (2, 1) :=
  ⟨by rfl, by rfl⟩

/-- C1 (amended): for every stream in which each line either raises a
`ParseFailure` in the decoder or decodes and transforms successfully, the
run completes (it is never aborted by a decode failure, and the
end-of-stream close calls run): each malformed line contributes exactly one
error entry and each
successfully decoded line contributes exactly as many output records as its
transform returns (0, 1 or many — not always 1). -/
theorem claim_C1 (headers : HeaderMap) (transforms : TransformMap) (lines : List String)
    (hok : ∀ l ∈ lines, (lineResult headers transforms l).isOk = true) :
    (extract_files headers transforms lines).toOption.map
        (fun st => (st.closed, st.outputs.length, st.errors.length)) =
      some (true, (lines.map (lineOuts headers transforms)).sum,
        (lines.map (lineErrs headers transforms)).sum) := by
  obtain ⟨st', h1, h2, h3, h4⟩ :=
    extractLoop_counts headers transforms lines
      { outputs := [], errors := [], closed := false, outClosed := false } hok
  rw [extract_files, h1]
  simp [Except.toOption, h2, h3, h4]

/-- C1 (witness): the amended theorem applied to a concrete two-line stream
(one malformed line, one line expanding to two records). -/
theorem claim_C1_witness :
    (extract_files [("6", cnaeHeaderModel)] [("6", transform_cnae_secundaria)]
      ["612345678901234X", "612345678901234F"]).toOption.map
        (fun st => (st.closed, st.outputs.length, st.errors.length)) =
      some (true,
        ((["612345678901234X", "612345678901234F"].map
          (lineOuts [("6", cnaeHeaderModel)] [("6", transform_cnae_secundaria)])).sum),
        ((["612345678901234X", "612345678901234F"].map
          (lineErrs [("6", cnaeHeaderModel)] [("6", transform_cnae_secundaria)])).sum)) :=
  claim_C1 [("6", cnaeHeaderModel)] [("6", transform_cnae_secundaria)]
    ["612345678901234X", "612345678901234F"] (by decide)

/-! ## Claim C8: resource release on exit paths -/

/-- C8 (counterexample): the claimed release of all resources on every exit
path fails twice. On normal exhaustion (first run) the code closes only the
error sink, the input text handle and the zip archive (`closed = true`) —
it contains no close or flush call on the per-type output writers, so the
output sinks stay open (`outClosed = false`). On the fatal-error path
(second run, an `AssertionError` from the partner transform on the second
line) the exception propagates before even those three `close()` calls
(`closed = false`), while the partial output written for the first line
remains in place. -/
theorem claim_C8_cex :
    extract_files [("2", socioHeaderModel)] [("2", transform_socio)]
      ["2  JOAO        123456789012342F"] =
      Except.ok ⟨[("2", [("nome_representante_legal", Value.vstr "JOAO"),
                 ("cnpj_cpf_do_socio", Value.vstr "45678901234"),
                 ("identificador_de_socio", Value.vint 2)])], [], true, false⟩ ∧
    extract_files [("2", socioHeaderModel)] [("2", transform_socio)]
      ["2  JOAO        123456789012342F", "2XXJOAO        123456789012342F"] =
      Except.error (Fatal.transformError TErr.assertionError,
        ⟨[("2", [("nome_representante_legal", Value.vstr "JOAO"),
                 ("cnpj_cpf_do_socio", Value.vstr "45678901234"),
                 ("identificador_de_socio", Value.vint 2)])], [], false, false⟩) :=
  ⟨by rfl, by rfl⟩

/-- C8 (amended): on normal exhaustion of the stream the run closes exactly
the three handles the code closes — the error sink, the input text handle
and the zip archive (`closed = true`) — but the per-type output sinks are
never closed on any path (`outClosed = false` always: the code has no such
call); on the fatal-error path (uncaught transform exception, unknown tag,
empty line) even those three close calls are skipped (`closed = false`),
the partial output written before the failing line remaining in the
carried state (not rolled back). -/
theorem claim_C8 :
    (∀ (headers : HeaderMap) (transforms : TransformMap) (lines : List String) (st : DState),
      extract_files headers transforms lines = Except.ok st →
        st.closed = true ∧ st.outClosed = false) ∧
    (∀ (headers : HeaderMap) (transforms : TransformMap) (lines : List String)
      (f : Fatal) (st : DState),
      extract_files headers transforms lines = Except.error (f, st) →
        st.closed = false ∧ st.outClosed = false) := by
  constructor
  · intro headers transforms lines st h
    exact ⟨extractLoop_ok_closed headers transforms lines _ st h,
      extractLoop_ok_outClosed headers transforms lines _ st h⟩
  · intro headers transforms lines f st h
    exact ⟨extractLoop_error_closed headers transforms lines _ f st h,
      extractLoop_error_outClosed headers transforms lines _ f st h⟩

/-- C8 (witness): the amended theorem applied to a concrete normally
completed run (the three closes run, output sinks still open) and to the
concrete aborted run of the counterexample input (every handle left open). -/
theorem claim_C8_witness :
    ((⟨[("2", [("nome_representante_legal", Value.vstr "JOAO"),
              ("cnpj_cpf_do_socio", Value.vstr "45678901234"),
              ("identificador_de_socio", Value.vint 2)])], [], true, false⟩ : DState).closed
        = true ∧
     (⟨[("2", [("nome_representante_legal", Value.vstr "JOAO"),
              ("cnpj_cpf_do_socio", Value.vstr "45678901234"),
              ("identificador_de_socio", Value.vint 2)])], [], true, false⟩ : DState).outClosed
        = false) ∧
    ((⟨[("2", [("nome_representante_legal", Value.vstr "JOAO"),
              ("cnpj_cpf_do_socio", Value.vstr "45678901234"),
              ("identificador_de_socio", Value.vint 2)])], [], false, false⟩ : DState).closed
        = false ∧
     (⟨[("2", [("nome_representante_legal", Value.vstr "JOAO"),
              ("cnpj_cpf_do_socio", Value.vstr "45678901234"),
              ("identificador_de_socio", Value.vint 2)])], [], false, false⟩ : DState).outClosed
        = false) :=
  ⟨claim_C8.1 [("2", socioHeaderModel)] [("2", transform_socio)]
      ["2  JOAO        123456789012342F"] _ (by rfl),
    claim_C8.2 [("2", socioHeaderModel)] [("2", transform_socio)]
      ["2  JOAO        123456789012342F", "2XXJOAO        123456789012342F"]
      (Fatal.transformError TErr.assertionError) _ (by rfl)⟩

/-! ## Helper lemmas on the partner transform -/

theorem socio_spec (row : Row) (nome cc ident : Value)
    (hc : getV row "campo_desconhecido" = some (.vstr ""))
    (hn : getV row "nome_representante_legal" = some nome)
    (hcc : getV row "cnpj_cpf_do_socio" = some cc)
    (hid : getV row "identificador_de_socio" = some ident) :
    transform_socio row = socioModel row nome cc ident := by
  by_cases h1 : nome = .vstr "CPF INVALIDO" <;>
    by_cases h2 : cc = .vstr "000***000000**" <;>
      by_cases h3 : ident = .vint 2 <;>
        simp [transform_socio, socioModel, getE, hc, hn, hcc, hid, h1, h2, h3,
          getV_delV, getV_setV, Bind.bind, Except.bind, pure, Except.pure]

/-! ## Helper lemmas on the company transform -/

theorem exceptBind_assoc {ε α β γ : Type} (x : Except ε α) (f : α → Except ε β)
    (g : β → Except ε γ) :
    (x.bind f).bind g = x.bind (fun a => (f a).bind g) := by
  cases x <;> rfl

theorem empresa_spec (row : Row) (em : String) (sv : Value) (nfs : String) (mv : Value)
    (he : getV row "correio_eletronico" = some (.vstr em))
    (hs : getV row "opcao_pelo_simples" = some sv)
    (hn : getV row "nome_fantasia" = some (.vstr nfs))
    (hm : getV row "opcao_pelo_mei" = some mv) :
    transform_empresa row = empresaModel row em sv nfs mv := by
  by_cases hA : (sv = .vstr "" ∨ sv = .vstr "0" ∨ sv = .vstr "6" ∨ sv = .vstr "8") <;>
    by_cases hB : (sv = .vstr "5" ∨ sv = .vstr "7") <;>
      by_cases hz : pyZeroSet nfs <;>
        by_cases hm1 : (mv = .vstr "N" ∨ mv = .vstr "") <;>
          by_cases hm2 : mv = .vstr "S" <;>
            simp [transform_empresa, empresaModel, empresaModelTail, getE, he, hs, hn, hm,
              hA, hB, hz, hm1, hm2, getV_setV, Bind.bind, exceptBind_assoc, pure,
              Except.pure, asStr, Except.bind]

theorem empresaMeiBranch_preserve (row4 r : Row) (k : String)
    (hk1 : ¬("razao_social" = k)) (hk2 : ¬("nome_fantasia" = k))
    (hk3 : ¬("complemento" = k)) (hk4 : ¬("ddd_fax" = k)) (hk5 : ¬("ddd_telefone_1" = k))
    (hk6 : ¬("ddd_telefone_2" = k)) (hk7 : ¬("descricao_tipo_logradouro" = k))
    (hk8 : ¬("logradouro" = k)) (hk9 : ¬("numero" = k))
    (h : empresaMeiBranch row4 = Except.ok r) : getV r k = getV row4 k := by
  rw [empresaMeiBranch] at h
  simp only [getE, asStr, Bind.bind, Except.bind, pure, Except.pure] at h
  repeat' split at h
  all_goals first
    | exact Except.noConfusion h
    | (simp only [Except.ok.injEq] at h
       subst h
       simp [fields_to_clear_if_mei, List.foldl, getV_setV, hk1, hk2, hk3, hk4, hk5, hk6,
         hk7, hk8, hk9]
       done)
    | exact absurd trivial (by assumption)

theorem empresaMeiBranch_clears (row4 r : Row)
    (h : empresaMeiBranch row4 = Except.ok r) :
    ∀ f ∈ fields_to_clear_if_mei, getV r f = some (.vstr "") := by
  rw [empresaMeiBranch] at h
  simp only [getE, asStr, Bind.bind, Except.bind, pure, Except.pure] at h
  repeat' split at h
  all_goals first
    | exact Except.noConfusion h
    | (simp only [Except.ok.injEq] at h
       subst h
       intro f hf
       simp only [fields_to_clear_if_mei, List.mem_cons, List.not_mem_nil, or_false] at hf
       rcases hf with rfl | rfl | rfl | rfl | rfl | rfl | rfl <;>
         simp [fields_to_clear_if_mei, List.foldl, getV_setV]
       done)
    | exact absurd trivial (by assumption)

theorem empresaMeiBranch_razao (row4 r : Row) (rs w s' : String)
    (hr : getV row4 "razao_social" = some (.vstr rs))
    (hw : pyLast (pySplit rs) = Except.ok w)
    (hd : pyIsDigit w = true)
    (hcl : clear_company_name rs = Except.ok s')
    (h : empresaMeiBranch row4 = Except.ok r) :
    getV r "razao_social" = some (.vstr s') := by
  rw [empresaMeiBranch] at h
  simp [getE, asStr, hr, hw, hd, hcl, Bind.bind, Except.bind, pure, Except.pure,
    getV_setV] at h
  repeat' split at h
  all_goals first
    | exact Except.noConfusion h
    | (simp only [Except.ok.injEq] at h
       subst h
       simp [fields_to_clear_if_mei, List.foldl, getV_setV]
       done)
    | exact absurd trivial (by assumption)

theorem empresaMeiBranch_nf (row4 r : Row) (nfs w t' : String)
    (hnf : getV row4 "nome_fantasia" = some (.vstr nfs))
    (hne : nfs ≠ "")
    (hw : pyLast (pySplit nfs) = Except.ok w)
    (hd : pyIsDigit w = true)
    (hcl : clear_company_name nfs = Except.ok t')
    (h : empresaMeiBranch row4 = Except.ok r) :
    getV r "nome_fantasia" = some (.vstr t') := by
  rw [empresaMeiBranch] at h
  simp [getE, asStr, hnf, hne, hw, hd, hcl, Bind.bind, Except.bind, pure, Except.pure,
    getV_setV] at h
  repeat' split at h
  all_goals first
    | exact Except.noConfusion h
    | (simp only [Except.ok.injEq] at h
       subst h
       simp [fields_to_clear_if_mei, List.foldl, getV_setV]
       done)
    | exact absurd trivial (by assumption)

theorem empresaModelTail_preserve (row row2 : Row) (nfs : String) (mv : Value) (r' : Row)
    (k : String)
    (hk1 : ¬("razao_social" = k)) (hk2 : ¬("nome_fantasia" = k))
    (hk3 : ¬("opcao_pelo_mei" = k))
    (hk4 : ¬("complemento" = k)) (hk5 : ¬("ddd_fax" = k)) (hk6 : ¬("ddd_telefone_1" = k))
    (hk7 : ¬("ddd_telefone_2" = k)) (hk8 : ¬("descricao_tipo_logradouro" = k))
    (hk9 : ¬("logradouro" = k)) (hk10 : ¬("numero" = k))
    (hk11 : ¬("codigo_pais" = k)) (hk12 : ¬("correio_eletronico" = k))
    (hk13 : ¬("filler" = k)) (hk14 : ¬("nome_pais" = k))
    (heq : empresaModelTail row row2 nfs mv = Except.ok [r']) :
    getV r' k = getV row2 k := by
  simp only [empresaModelTail] at heq
  by_cases hm1 : (mv = .vstr "N" ∨ mv = .vstr "")
  · rw [if_pos hm1] at heq
    simp only [Except.ok.injEq, List.cons.injEq, and_true] at heq
    subst heq
    simp [fields_to_delete, List.foldl, getV_delV, getV_setV, getV_ite, hk2, hk3, hk11,
      hk12, hk13, hk14]
  · by_cases hm2 : mv = .vstr "S"
    · subst hm2
      rw [if_neg hm1] at heq
      first
        | simp only [if_true] at heq
        | rw [if_pos rfl] at heq
      rcases hme : empresaMeiBranch (setV
          (if pyZeroSet nfs then setV row2 "nome_fantasia" (Value.vstr "") else row2)
          "opcao_pelo_mei" (Value.vstr "1")) with e | rr
      · rw [hme] at heq
        simp [Except.bind] at heq
      · rw [hme] at heq
        simp only [Except.bind, Except.ok.injEq, List.cons.injEq, and_true] at heq
        subst heq
        simp only [fields_to_delete, List.foldl]
        simp [getV_delV, hk11, hk12, hk13, hk14]
        rw [empresaMeiBranch_preserve _ rr k hk1 hk2 hk4 hk5 hk6 hk7 hk8 hk9 hk10 hme]
        simp [getV_setV, getV_ite, hk2, hk3]
    · rw [if_neg hm1, if_neg hm2] at heq
      rcases hcn : getV row "cnpj" with _ | c <;>
        simp [getE, hcn, Except.bind] at heq

theorem empresaModelTail_mei (row row2 : Row) (nfs : String) (mv : Value) (r' : Row)
    (heq : empresaModelTail row row2 nfs mv = Except.ok [r']) :
    getV r' "opcao_pelo_mei" = some (.vstr (if mv = .vstr "S" then "1" else "0")) := by
  simp only [empresaModelTail] at heq
  by_cases hm1 : (mv = .vstr "N" ∨ mv = .vstr "")
  · rw [if_pos hm1] at heq
    simp only [Except.ok.injEq, List.cons.injEq, and_true] at heq
    subst heq
    rcases hm1 with rfl | rfl <;>
      simp [fields_to_delete, List.foldl, getV_delV, getV_setV]
  · by_cases hm2 : mv = .vstr "S"
    · subst hm2
      rw [if_neg hm1] at heq
      first
        | simp only [if_true] at heq
        | rw [if_pos rfl] at heq
      rcases hme : empresaMeiBranch (setV
          (if pyZeroSet nfs then setV row2 "nome_fantasia" (Value.vstr "") else row2)
          "opcao_pelo_mei" (Value.vstr "1")) with e | rr
      · rw [hme] at heq
        simp [Except.bind] at heq
      · rw [hme] at heq
        simp only [Except.bind, Except.ok.injEq, List.cons.injEq, and_true] at heq
        subst heq
        simp only [fields_to_delete, List.foldl]
        simp [getV_delV]
        rw [empresaMeiBranch_preserve _ rr "opcao_pelo_mei" (by decide) (by decide)
          (by decide) (by decide) (by decide) (by decide) (by decide) (by decide)
          (by decide) hme]
        simp [getV_setV]
    · rw [if_neg hm1, if_neg hm2] at heq
      rcases hcn : getV row "cnpj" with _ | c <;>
        simp [getE, hcn, Except.bind] at heq

theorem empresaModelTail_clears (row row2 : Row) (nfs : String) (r' : Row)
    (heq : empresaModelTail row row2 nfs (.vstr "S") = Except.ok [r']) :
    ∀ f ∈ fields_to_clear_if_mei, getV r' f = some (.vstr "") := by
  simp only [empresaModelTail] at heq
  rw [if_neg (by simp)] at heq
  first
    | simp only [if_true] at heq
    | rw [if_pos rfl] at heq
  rcases hme : empresaMeiBranch (setV
      (if pyZeroSet nfs then setV row2 "nome_fantasia" (Value.vstr "") else row2)
      "opcao_pelo_mei" (Value.vstr "1")) with e | rr
  · rw [hme] at heq
    simp [Except.bind] at heq
  · rw [hme] at heq
    simp only [Except.bind, Except.ok.injEq, List.cons.injEq, and_true] at heq
    subst heq
    intro f hf
    have hclr := empresaMeiBranch_clears _ rr hme f hf
    simp only [fields_to_clear_if_mei, List.mem_cons, List.not_mem_nil, or_false] at hf
    rcases hf with rfl | rfl | rfl | rfl | rfl | rfl | rfl <;>
      simpa [fields_to_delete, List.foldl, getV_delV] using hclr

theorem empresaModelTail_razao (row row2 : Row) (nfs : String) (r' : Row) (rs w s' : String)
    (hr2 : getV row2 "razao_social" = some (.vstr rs))
    (hw : pyLast (pySplit rs) = Except.ok w) (hd : pyIsDigit w = true)
    (hcl : clear_company_name rs = Except.ok s')
    (heq : empresaModelTail row row2 nfs (.vstr "S") = Except.ok [r']) :
    getV r' "razao_social" = some (.vstr s') := by
  simp only [empresaModelTail] at heq
  rw [if_neg (by simp)] at heq
  first
    | simp only [if_true] at heq
    | rw [if_pos rfl] at heq
  rcases hme : empresaMeiBranch (setV
      (if pyZeroSet nfs then setV row2 "nome_fantasia" (Value.vstr "") else row2)
      "opcao_pelo_mei" (Value.vstr "1")) with e | rr
  · rw [hme] at heq
    simp [Except.bind] at heq
  · rw [hme] at heq
    simp only [Except.bind, Except.ok.injEq, List.cons.injEq, and_true] at heq
    subst heq
    simp only [fields_to_delete, List.foldl]
    simp [getV_delV]
    exact empresaMeiBranch_razao _ rr rs w s'
      (by simp [getV_setV, getV_ite, hr2]) hw hd hcl hme

theorem empresaModelTail_nf (row row2 : Row) (nfs : String) (r' : Row) (w t' : String)
    (hn2 : getV row2 "nome_fantasia" = some (.vstr nfs))
    (hnz : ¬pyZeroSet nfs) (hne : nfs ≠ "")
    (hw : pyLast (pySplit nfs) = Except.ok w) (hd : pyIsDigit w = true)
    (hcl : clear_company_name nfs = Except.ok t')
    (heq : empresaModelTail row row2 nfs (.vstr "S") = Except.ok [r']) :
    getV r' "nome_fantasia" = some (.vstr t') := by
  simp only [empresaModelTail] at heq
  rw [if_neg (by simp)] at heq
  first
    | simp only [if_true] at heq
    | rw [if_pos rfl] at heq
  rw [if_neg hnz] at heq
  rcases hme : empresaMeiBranch (setV row2 "opcao_pelo_mei" (Value.vstr "1")) with e | rr
  · rw [hme] at heq
    simp [Except.bind] at heq
  · rw [hme] at heq
    simp only [Except.bind, Except.ok.injEq, List.cons.injEq, and_true] at heq
    subst heq
    simp only [fields_to_delete, List.foldl]
    simp [getV_delV]
    exact empresaMeiBranch_nf _ rr nfs w t' (by simp [getV_setV, hn2]) hne hw hd hcl hme

/-! ## Claim C6: the partner transform -/

/-- C6: the partner transform asserts the unknown field is empty (any other
value raises an `AssertionError`, a transform exception the dispatcher does
not catch — not a `ParseFailure`); it returns exactly one record on
success; on the `CPF INVALIDO` sentinel the representative's name, tax-ID
and qualification code are nulled together; the masked placeholder tax-ID
is blanked; and for partner type 2 (natural person) the tax-ID keeps only
its last 11 characters. -/
theorem claim_C6 :
    (∀ (row : Row) (v : Value), getV row "campo_desconhecido" = some v → v ≠ .vstr "" →
      transform_socio row = Except.error TErr.assertionError) ∧
    (∀ (row : Row) (v1 v2 v3 v4 : Value) (out : List Row),
      getV row "campo_desconhecido" = some v1 →
      getV row "nome_representante_legal" = some v2 →
      getV row "cnpj_cpf_do_socio" = some v3 →
      getV row "identificador_de_socio" = some v4 →
      transform_socio row = Except.ok out → out.length = 1) ∧
    (∀ (row : Row) (cc ident : Value) (r' : Row),
      getV row "campo_desconhecido" = some (.vstr "") →
      getV row "nome_representante_legal" = some (.vstr "CPF INVALIDO") →
      getV row "cnpj_cpf_do_socio" = some cc →
      getV row "identificador_de_socio" = some ident →
      transform_socio row = Except.ok [r'] →
      getV r' "cpf_representante_legal" = some .vnull ∧
      getV r' "nome_representante_legal" = some .vnull ∧
      getV r' "codigo_qualificacao_representante_legal" = some .vnull) ∧
    (∀ (row : Row) (nome ident : Value) (r' : Row),
      getV row "campo_desconhecido" = some (.vstr "") →
      getV row "nome_representante_legal" = some nome →
      getV row "cnpj_cpf_do_socio" = some (.vstr "000***000000**") →
      getV row "identificador_de_socio" = some ident →
      transform_socio row = Except.ok [r'] →
      getV r' "cnpj_cpf_do_socio" = some (.vstr "")) ∧
    (∀ (row : Row) (nome : Value) (s : String) (r' : Row),
      getV row "campo_desconhecido" = some (.vstr "") →
      getV row "nome_representante_legal" = some nome →
      getV row "cnpj_cpf_do_socio" = some (.vstr s) → s ≠ "000***000000**" →
      getV row "identificador_de_socio" = some (.vint 2) →
      transform_socio row = Except.ok [r'] →
      getV r' "cnpj_cpf_do_socio" = some (.vstr (takeRight s 11))) := by
  refine ⟨?_, ?_, ?_, ?_, ?_⟩
  · intro row v hv hne
    simp [transform_socio, getE, hv, hne, Bind.bind, Except.bind]
  · intro row v1 v2 v3 v4 out h1 h2 h3 h4 heq
    by_cases hv1 : v1 = .vstr ""
    · subst hv1
      rw [socio_spec row v2 v3 v4 h1 h2 h3 h4] at heq
      simp only [socioModel] at heq
      repeat' split at heq
      all_goals first
        | exact Except.noConfusion heq
        | (simp only [Except.ok.injEq] at heq
           subst heq
           rfl)
    · rw [transform_socio] at heq
      simp [getE, h1, hv1, Bind.bind, Except.bind] at heq
  · intro row cc ident r' hc hn hcc hid heq
    rw [socio_spec row _ cc ident hc hn hcc hid] at heq
    simp only [socioModel] at heq
    repeat' split at heq
    all_goals first
      | exact Except.noConfusion heq
      | (simp only [Except.ok.injEq, List.cons.injEq, and_true] at heq
         subst heq
         simp [getV_setV, getV_delV]
         done)
      | exact absurd trivial (by assumption)
  · intro row nome ident r' hc hn hcc hid heq
    rw [socio_spec row nome _ ident hc hn hcc hid] at heq
    simp only [socioModel] at heq
    have hTR : takeRight "" 11 = "" := rfl
    by_cases h1 : nome = .vstr "CPF INVALIDO" <;> by_cases h3 : ident = .vint 2 <;>
      (simp [h1, h3, hTR] at heq
       subst heq
       simp [getV_setV, getV_delV])
  · intro row nome s r' hc hn hcc hs hid heq
    rw [socio_spec row nome _ _ hc hn hcc hid] at heq
    simp only [socioModel] at heq
    by_cases h1 : nome = .vstr "CPF INVALIDO" <;>
      (simp [h1, hs] at heq
       subst heq
       simp [getV_setV, getV_delV])

/-- C6 (witness): the theorem applied to concrete partner records: a
non-empty unknown field aborts with `AssertionError`; a natural-person
record yields one output with the tax-ID truncated to its last 11
characters; the `CPF INVALIDO` sentinel nulls the representative triple;
and the masked placeholder is blanked. -/
theorem claim_C6_witness :
    transform_socio [("campo_desconhecido", Value.vstr "XX")] =
      Except.error TErr.assertionError ∧
    ([[("nome_representante_legal", Value.vstr "JOAO"),
       ("cnpj_cpf_do_socio", Value.vstr "45678901234"),
       ("identificador_de_socio", Value.vint 2)]] : List Row).length = 1 ∧
    (getV [("nome_representante_legal", Value.vnull),
           ("cnpj_cpf_do_socio", Value.vstr "X"),
           ("identificador_de_socio", Value.vint 5),
           ("cpf_representante_legal", Value.vnull),
           ("codigo_qualificacao_representante_legal", Value.vnull)]
        "cpf_representante_legal" = some .vnull ∧
      getV [("nome_representante_legal", Value.vnull),
           ("cnpj_cpf_do_socio", Value.vstr "X"),
           ("identificador_de_socio", Value.vint 5),
           ("cpf_representante_legal", Value.vnull),
           ("codigo_qualificacao_representante_legal", Value.vnull)]
        "nome_representante_legal" = some .vnull ∧
      getV [("nome_representante_legal", Value.vnull),
           ("cnpj_cpf_do_socio", Value.vstr "X"),
           ("identificador_de_socio", Value.vint 5),
           ("cpf_representante_legal", Value.vnull),
           ("codigo_qualificacao_representante_legal", Value.vnull)]
        "codigo_qualificacao_representante_legal" = some .vnull) ∧
    getV [("nome_representante_legal", Value.vstr "J"),
          ("cnpj_cpf_do_socio", Value.vstr ""),
          ("identificador_de_socio", Value.vint 1)] "cnpj_cpf_do_socio" =
      some (.vstr "") ∧
    getV [("nome_representante_legal", Value.vstr "J"),
          ("cnpj_cpf_do_socio", Value.vstr "45678901234"),
          ("identificador_de_socio", Value.vint 2)] "cnpj_cpf_do_socio" =
      some (.vstr (takeRight "12345678901234" 11)) :=
  ⟨claim_C6.1 [("campo_desconhecido", Value.vstr "XX")] (Value.vstr "XX") (by rfl) (by decide),
   claim_C6.2.1 [("campo_desconhecido", Value.vstr ""),
     ("nome_representante_legal", Value.vstr "JOAO"),
     ("cnpj_cpf_do_socio", Value.vstr "12345678901234"),
     ("identificador_de_socio", Value.vint 2)] (Value.vstr "") (Value.vstr "JOAO")
     (Value.vstr "12345678901234") (Value.vint 2) _
     (by rfl) (by rfl) (by rfl) (by rfl) (by rfl),
   claim_C6.2.2.1 [("campo_desconhecido", Value.vstr ""),
     ("nome_representante_legal", Value.vstr "CPF INVALIDO"),
     ("cnpj_cpf_do_socio", Value.vstr "X"),
     ("identificador_de_socio", Value.vint 5)] (Value.vstr "X") (Value.vint 5) _
     (by rfl) (by rfl) (by rfl) (by rfl) (by rfl),
   claim_C6.2.2.2.1 [("campo_desconhecido", Value.vstr ""),
     ("nome_representante_legal", Value.vstr "J"),
     ("cnpj_cpf_do_socio", Value.vstr "000***000000**"),
     ("identificador_de_socio", Value.vint 1)] (Value.vstr "J") (Value.vint 1) _
     (by rfl) (by rfl) (by rfl) (by rfl) (by rfl),
   claim_C6.2.2.2.2 [("campo_desconhecido", Value.vstr ""),
     ("nome_representante_legal", Value.vstr "J"),
     ("cnpj_cpf_do_socio", Value.vstr "12345678901234"),
     ("identificador_de_socio", Value.vint 2)] (Value.vstr "J") "12345678901234" _
     (by rfl) (by rfl) (by rfl) (by decide) (by rfl) (by rfl)⟩

theorem empresaModelTail_badMei (row row2 : Row) (nfs : String) (mv cnpj : Value)
    (hc : getV row "cnpj" = some cnpj)
    (m1 : mv ≠ .vstr "N") (m2 : mv ≠ .vstr "") (m3 : mv ≠ .vstr "S") :
    empresaModelTail row row2 nfs mv = Except.error (.valueError
      ("Opção pelo MEI inválida: " ++ mv.toPy ++ " (CNPJ: " ++ cnpj.toPy ++ ")")) := by
  simp only [empresaModelTail]
  rw [if_neg (by simp [m1, m2]), if_neg m3]
  simp [getE, hc, Except.bind]

/-! ## Claim C4: company-flag normalization -/

/-- C4: the tax-regime values `""`, `"0"`, `"6"`, `"8"` normalize to `"0"`
and `"5"`, `"7"` to `"1"`; the MEI value `"S"` normalizes to `"1"` and
`"N"`/`""` to `"0"`; any other tax-regime value makes the transform raise a
`ValueError` whose message names the offending value and the record's CNPJ,
and likewise for any other MEI value — the transform never silently
defaults. -/
theorem claim_C4 :
    (∀ (row : Row) (em : String) (sv cnpj : Value),
      getV row "correio_eletronico" = some (.vstr em) →
      getV row "opcao_pelo_simples" = some sv →
      getV row "cnpj" = some cnpj →
      sv ∉ ([.vstr "", .vstr "0", .vstr "6", .vstr "8", .vstr "5", .vstr "7"] : List Value) →
      transform_empresa row = Except.error (.valueError
        ("Opção pelo Simples inválida: " ++ sv.toPy ++ " (CNPJ: " ++ cnpj.toPy ++ ")"))) ∧
    (∀ (row : Row) (em : String) (sv : Value) (nfs : String) (mv cnpj : Value),
      getV row "correio_eletronico" = some (.vstr em) →
      getV row "opcao_pelo_simples" = some sv →
      getV row "nome_fantasia" = some (.vstr nfs) →
      getV row "opcao_pelo_mei" = some mv →
      getV row "cnpj" = some cnpj →
      (sv = .vstr "" ∨ sv = .vstr "0" ∨ sv = .vstr "6" ∨ sv = .vstr "8" ∨
        sv = .vstr "5" ∨ sv = .vstr "7") →
      mv ∉ ([.vstr "N", .vstr "", .vstr "S"] : List Value) →
      transform_empresa row = Except.error (.valueError
        ("Opção pelo MEI inválida: " ++ mv.toPy ++ " (CNPJ: " ++ cnpj.toPy ++ ")"))) ∧
    (∀ (row : Row) (em : String) (sv : Value) (nfs : String) (mv : Value) (r' : Row),
      getV row "correio_eletronico" = some (.vstr em) →
      getV row "opcao_pelo_simples" = some sv →
      getV row "nome_fantasia" = some (.vstr nfs) →
      getV row "opcao_pelo_mei" = some mv →
      (sv = .vstr "" ∨ sv = .vstr "0" ∨ sv = .vstr "6" ∨ sv = .vstr "8" ∨
        sv = .vstr "5" ∨ sv = .vstr "7") →
      transform_empresa row = Except.ok [r'] →
      getV r' "opcao_pelo_simples" = some (.vstr
        (if sv = .vstr "" ∨ sv = .vstr "0" ∨ sv = .vstr "6" ∨ sv = .vstr "8"
          then "0" else "1")) ∧
      getV r' "opcao_pelo_mei" = some (.vstr (if mv = .vstr "S" then "1" else "0"))) := by
  refine ⟨?_, ?_, ?_⟩
  · intro row em sv cnpj he hs hc hnot
    have hn6 : sv ≠ .vstr "" ∧ sv ≠ .vstr "0" ∧ sv ≠ .vstr "6" ∧ sv ≠ .vstr "8" ∧
        sv ≠ .vstr "5" ∧ sv ≠ .vstr "7" := by
      simpa [not_or] using hnot
    obtain ⟨n1, n2, n3, n4, n5, n6⟩ := hn6
    simp [transform_empresa, getE, he, hs, hc, n1, n2, n3, n4, n5, n6, getV_setV,
      Bind.bind, Except.bind, exceptBind_assoc, Except.pure, pure, asStr]
  · intro row em sv nfs mv cnpj he hs hn hm hc hsv hnot
    have hm3 : mv ≠ .vstr "N" ∧ mv ≠ .vstr "" ∧ mv ≠ .vstr "S" := by
      simpa [not_or] using hnot
    obtain ⟨m1, m2, m3⟩ := hm3
    rw [empresa_spec row em sv nfs mv he hs hn hm]
    simp only [empresaModel]
    by_cases hA : (sv = .vstr "" ∨ sv = .vstr "0" ∨ sv = .vstr "6" ∨ sv = .vstr "8")
    · rw [if_pos hA]
      exact empresaModelTail_badMei _ _ _ _ _ hc m1 m2 m3
    · have hB : (sv = .vstr "5" ∨ sv = .vstr "7") := by
        rcases hsv with rfl | rfl | rfl | rfl | rfl | rfl
        · exact absurd (Or.inl rfl) hA
        · exact absurd (Or.inr (Or.inl rfl)) hA
        · exact absurd (Or.inr (Or.inr (Or.inl rfl))) hA
        · exact absurd (Or.inr (Or.inr (Or.inr rfl))) hA
        · exact Or.inl rfl
        · exact Or.inr rfl
      rw [if_neg hA, if_pos hB]
      exact empresaModelTail_badMei _ _ _ _ _ hc m1 m2 m3
  · intro row em sv nfs mv r' he hs hn hm hsv heq
    rw [empresa_spec row em sv nfs mv he hs hn hm] at heq
    simp only [empresaModel] at heq
    by_cases hA : (sv = .vstr "" ∨ sv = .vstr "0" ∨ sv = .vstr "6" ∨ sv = .vstr "8")
    · rw [if_pos hA] at heq
      constructor
      · rw [empresaModelTail_preserve _ _ _ _ _ "opcao_pelo_simples" (by decide) (by decide)
          (by decide) (by decide) (by decide) (by decide) (by decide) (by decide)
          (by decide) (by decide) (by decide) (by decide) (by decide) (by decide) heq]
        simp [getV_setV, hA]
      · exact empresaModelTail_mei _ _ _ _ _ heq
    · have hB : (sv = .vstr "5" ∨ sv = .vstr "7") := by
        rcases hsv with rfl | rfl | rfl | rfl | rfl | rfl
        · exact absurd (Or.inl rfl) hA
        · exact absurd (Or.inr (Or.inl rfl)) hA
        · exact absurd (Or.inr (Or.inr (Or.inl rfl))) hA
        · exact absurd (Or.inr (Or.inr (Or.inr rfl))) hA
        · exact Or.inl rfl
        · exact Or.inr rfl
      rw [if_neg hA, if_pos hB] at heq
      constructor
      · rw [empresaModelTail_preserve _ _ _ _ _ "opcao_pelo_simples" (by decide) (by decide)
          (by decide) (by decide) (by decide) (by decide) (by decide) (by decide)
          (by decide) (by decide) (by decide) (by decide) (by decide) (by decide) heq]
        simp [getV_setV, hA]
      · exact empresaModelTail_mei _ _ _ _ _ heq

/-- C4 (witness): the theorem applied to concrete company records: an
unknown tax-regime value `"9"` and an unknown MEI value `"X"` abort with
the descriptive errors, and a record with tax-regime `"0"` and MEI `"N"`
normalizes both flags. -/
theorem claim_C4_witness :
    transform_empresa [("correio_eletronico", Value.vstr "a@b.c"),
      ("opcao_pelo_simples", Value.vstr "9"), ("nome_fantasia", Value.vstr "L"),
      ("opcao_pelo_mei", Value.vstr "N"), ("cnpj", Value.vstr "123")] =
      Except.error (.valueError ("Opção pelo Simples inválida: " ++
        (Value.vstr "9").toPy ++ " (CNPJ: " ++ (Value.vstr "123").toPy ++ ")")) ∧
    transform_empresa [("correio_eletronico", Value.vstr "a@b.c"),
      ("opcao_pelo_simples", Value.vstr "0"), ("nome_fantasia", Value.vstr "L"),
      ("opcao_pelo_mei", Value.vstr "X"), ("cnpj", Value.vstr "123")] =
      Except.error (.valueError ("Opção pelo MEI inválida: " ++
        (Value.vstr "X").toPy ++ " (CNPJ: " ++ (Value.vstr "123").toPy ++ ")")) ∧
    (getV [("opcao_pelo_simples", Value.vstr "0"), ("nome_fantasia", Value.vstr "L"),
        ("opcao_pelo_mei", Value.vstr "0"), ("cnpj", Value.vstr "123")]
        "opcao_pelo_simples" = some (.vstr
          (if (Value.vstr "0" : Value) = .vstr "" ∨ (Value.vstr "0" : Value) = .vstr "0" ∨
            (Value.vstr "0" : Value) = .vstr "6" ∨ (Value.vstr "0" : Value) = .vstr "8"
            then "0" else "1")) ∧
      getV [("opcao_pelo_simples", Value.vstr "0"), ("nome_fantasia", Value.vstr "L"),
        ("opcao_pelo_mei", Value.vstr "0"), ("cnpj", Value.vstr "123")]
        "opcao_pelo_mei" = some (.vstr
          (if (Value.vstr "N" : Value) = .vstr "S" then "1" else "0"))) :=
  ⟨claim_C4.1 [("correio_eletronico", Value.vstr "a@b.c"),
      ("opcao_pelo_simples", Value.vstr "9"), ("nome_fantasia", Value.vstr "L"),
      ("opcao_pelo_mei", Value.vstr "N"), ("cnpj", Value.vstr "123")]
      "a@b.c" (Value.vstr "9") (Value.vstr "123") (by rfl) (by rfl) (by rfl) (by decide),
   claim_C4.2.1 [("correio_eletronico", Value.vstr "a@b.c"),
      ("opcao_pelo_simples", Value.vstr "0"), ("nome_fantasia", Value.vstr "L"),
      ("opcao_pelo_mei", Value.vstr "X"), ("cnpj", Value.vstr "123")]
      "a@b.c" (Value.vstr "0") "L" (Value.vstr "X") (Value.vstr "123")
      (by rfl) (by rfl) (by rfl) (by rfl) (by rfl) (Or.inr (Or.inl rfl)) (by decide),
   claim_C4.2.2 [("correio_eletronico", Value.vstr "a@b.c"),
      ("opcao_pelo_simples", Value.vstr "0"), ("nome_fantasia", Value.vstr "L"),
      ("opcao_pelo_mei", Value.vstr "N"), ("cnpj", Value.vstr "123")]
      "a@b.c" (Value.vstr "0") "L" (Value.vstr "N")
      [("opcao_pelo_simples", Value.vstr "0"), ("nome_fantasia", Value.vstr "L"),
        ("opcao_pelo_mei", Value.vstr "0"), ("cnpj", Value.vstr "123")]
      (by rfl) (by rfl) (by rfl) (by rfl) (Or.inr (Or.inl rfl)) (by rfl)⟩

/-! ## Claim C5: MEI redaction and name cleanup -/

/-- C5: `clear_company_name` strips a trailing 11-digit CPF with optional
preceding `CPF` label and `-` separator (the four literal cases), and on a
MEI-enrolled company record (`opcao_pelo_mei = "S"`) the transform blanks
every field in `fields_to_clear_if_mei` regardless of decoded value and
replaces the legal-name (and non-empty trade-name) field by its
`clear_company_name` cleanup whenever its last token is numeric. -/
theorem claim_C5 :
    clear_company_name "FALANO DE TAL 12345678901" = Except.ok "FALANO DE TAL" ∧
    clear_company_name "FALANO DE TAL CPF 12345678901" = Except.ok "FALANO DE TAL" ∧
    clear_company_name "FALANO DE TAL - CPF 12345678901" = Except.ok "FALANO DE TAL" ∧
    clear_company_name "123456" = Except.ok "123456" ∧
    (∀ (row : Row) (em : String) (sv : Value) (nfs : String) (r' : Row),
      getV row "correio_eletronico" = some (.vstr em) →
      getV row "opcao_pelo_simples" = some sv →
      (sv = .vstr "" ∨ sv = .vstr "0" ∨ sv = .vstr "6" ∨ sv = .vstr "8" ∨
        sv = .vstr "5" ∨ sv = .vstr "7") →
      getV row "nome_fantasia" = some (.vstr nfs) →
      getV row "opcao_pelo_mei" = some (.vstr "S") →
      transform_empresa row = Except.ok [r'] →
      ∀ f ∈ fields_to_clear_if_mei, getV r' f = some (.vstr "")) ∧
    (∀ (row : Row) (em : String) (sv : Value) (nfs rs w s' : String) (r' : Row),
      getV row "correio_eletronico" = some (.vstr em) →
      getV row "opcao_pelo_simples" = some sv →
      (sv = .vstr "" ∨ sv = .vstr "0" ∨ sv = .vstr "6" ∨ sv = .vstr "8" ∨
        sv = .vstr "5" ∨ sv = .vstr "7") →
      getV row "nome_fantasia" = some (.vstr nfs) →
      getV row "opcao_pelo_mei" = some (.vstr "S") →
      getV row "razao_social" = some (.vstr rs) →
      pyLast (pySplit rs) = Except.ok w → pyIsDigit w = true →
      clear_company_name rs = Except.ok s' →
      transform_empresa row = Except.ok [r'] →
      getV r' "razao_social" = some (.vstr s')) ∧
    (∀ (row : Row) (em : String) (sv : Value) (nfs w t' : String) (r' : Row),
      getV row "correio_eletronico" = some (.vstr em) →
      getV row "opcao_pelo_simples" = some sv →
      (sv = .vstr "" ∨ sv = .vstr "0" ∨ sv = .vstr "6" ∨ sv = .vstr "8" ∨
        sv = .vstr "5" ∨ sv = .vstr "7") →
      getV row "nome_fantasia" = some (.vstr nfs) →
      getV row "opcao_pelo_mei" = some (.vstr "S") →
      ¬pyZeroSet nfs → nfs ≠ "" →
      pyLast (pySplit nfs) = Except.ok w → pyIsDigit w = true →
      clear_company_name nfs = Except.ok t' →
      transform_empresa row = Except.ok [r'] →
      getV r' "nome_fantasia" = some (.vstr t')) := by
  refine ⟨by rfl, by rfl, by rfl, by rfl, ?_, ?_, ?_⟩
  · intro row em sv nfs r' he hs hsv hn hm heq
    rw [empresa_spec row em sv nfs _ he hs hn hm] at heq
    simp only [empresaModel] at heq
    by_cases hA : (sv = .vstr "" ∨ sv = .vstr "0" ∨ sv = .vstr "6" ∨ sv = .vstr "8")
    · rw [if_pos hA] at heq
      exact empresaModelTail_clears _ _ _ _ heq
    · have hB : (sv = .vstr "5" ∨ sv = .vstr "7") := by
        rcases hsv with rfl | rfl | rfl | rfl | rfl | rfl
        · exact absurd (Or.inl rfl) hA
        · exact absurd (Or.inr (Or.inl rfl)) hA
        · exact absurd (Or.inr (Or.inr (Or.inl rfl))) hA
        · exact absurd (Or.inr (Or.inr (Or.inr rfl))) hA
        · exact Or.inl rfl
        · exact Or.inr rfl
      rw [if_neg hA, if_pos hB] at heq
      exact empresaModelTail_clears _ _ _ _ heq
  · intro row em sv nfs rs w s' r' he hs hsv hn hm hr hw hd hcl heq
    rw [empresa_spec row em sv nfs _ he hs hn hm] at heq
    simp only [empresaModel] at heq
    by_cases hA : (sv = .vstr "" ∨ sv = .vstr "0" ∨ sv = .vstr "6" ∨ sv = .vstr "8")
    · rw [if_pos hA] at heq
      exact empresaModelTail_razao _ _ _ _ rs w s' (by simp [getV_setV, hr]) hw hd hcl heq
    · have hB : (sv = .vstr "5" ∨ sv = .vstr "7") := by
        rcases hsv with rfl | rfl | rfl | rfl | rfl | rfl
        · exact absurd (Or.inl rfl) hA
        · exact absurd (Or.inr (Or.inl rfl)) hA
        · exact absurd (Or.inr (Or.inr (Or.inl rfl))) hA
        · exact absurd (Or.inr (Or.inr (Or.inr rfl))) hA
        · exact Or.inl rfl
        · exact Or.inr rfl
      rw [if_neg hA, if_pos hB] at heq
      exact empresaModelTail_razao _ _ _ _ rs w s' (by simp [getV_setV, hr]) hw hd hcl heq
  · intro row em sv nfs w t' r' he hs hsv hn hm hnz hne hw hd hcl heq
    rw [empresa_spec row em sv nfs _ he hs hn hm] at heq
    simp only [empresaModel] at heq
    by_cases hA : (sv = .vstr "" ∨ sv = .vstr "0" ∨ sv = .vstr "6" ∨ sv = .vstr "8")
    · rw [if_pos hA] at heq
      exact empresaModelTail_nf _ _ _ _ w t' (by simp [getV_setV, hn]) hnz hne hw hd hcl heq
    · have hB : (sv = .vstr "5" ∨ sv = .vstr "7") := by
        rcases hsv with rfl | rfl | rfl | rfl | rfl | rfl
        · exact absurd (Or.inl rfl) hA
        · exact absurd (Or.inr (Or.inl rfl)) hA
        · exact absurd (Or.inr (Or.inr (Or.inl rfl))) hA
        · exact absurd (Or.inr (Or.inr (Or.inr rfl))) hA
        · exact Or.inl rfl
        · exact Or.inr rfl
      rw [if_neg hA, if_pos hB] at heq
      exact empresaModelTail_nf _ _ _ _ w t' (by simp [getV_setV, hn]) hnz hne hw hd hcl heq

/-- C5 (witness): the theorem applied to a concrete MEI-enrolled company
record whose legal name and trade name end in an 11-digit CPF: the
personal-info fields come out blank and both names are stripped. -/
theorem claim_C5_witness :
    clear_company_name "FALANO DE TAL 12345678901" = Except.ok "FALANO DE TAL" ∧
    (∀ f ∈ fields_to_clear_if_mei,
      getV [("opcao_pelo_simples", Value.vstr "0"),
        ("nome_fantasia", Value.vstr "LOJA"), ("opcao_pelo_mei", Value.vstr "1"),
        ("razao_social", Value.vstr "FALANO DE TAL"), ("cnpj", Value.vstr "123"),
        ("complemento", Value.vstr ""), ("ddd_fax", Value.vstr ""),
        ("ddd_telefone_1", Value.vstr ""), ("ddd_telefone_2", Value.vstr ""),
        ("descricao_tipo_logradouro", Value.vstr ""), ("logradouro", Value.vstr ""),
        ("numero", Value.vstr "")] f = some (.vstr "")) ∧
    getV [("opcao_pelo_simples", Value.vstr "0"),
        ("nome_fantasia", Value.vstr "LOJA"), ("opcao_pelo_mei", Value.vstr "1"),
        ("razao_social", Value.vstr "FALANO DE TAL"), ("cnpj", Value.vstr "123"),
        ("complemento", Value.vstr ""), ("ddd_fax", Value.vstr ""),
        ("ddd_telefone_1", Value.vstr ""), ("ddd_telefone_2", Value.vstr ""),
        ("descricao_tipo_logradouro", Value.vstr ""), ("logradouro", Value.vstr ""),
        ("numero", Value.vstr "")] "razao_social" = some (.vstr "FALANO DE TAL") ∧
    getV [("opcao_pelo_simples", Value.vstr "0"),
        ("nome_fantasia", Value.vstr "LOJA"), ("opcao_pelo_mei", Value.vstr "1"),
        ("razao_social", Value.vstr "FALANO DE TAL"), ("cnpj", Value.vstr "123"),
        ("complemento", Value.vstr ""), ("ddd_fax", Value.vstr ""),
        ("ddd_telefone_1", Value.vstr ""), ("ddd_telefone_2", Value.vstr ""),
        ("descricao_tipo_logradouro", Value.vstr ""), ("logradouro", Value.vstr ""),
        ("numero", Value.vstr "")] "nome_fantasia" = some (.vstr "LOJA") :=
  ⟨claim_C5.1,
   claim_C5.2.2.2.2.1 [("correio_eletronico", Value.vstr "a@b.c"),
      ("opcao_pelo_simples", Value.vstr "0"),
      ("nome_fantasia", Value.vstr "LOJA 12345678901"),
      ("opcao_pelo_mei", Value.vstr "S"),
      ("razao_social", Value.vstr "FALANO DE TAL 12345678901"),
      ("cnpj", Value.vstr "123")] "a@b.c" (Value.vstr "0") "LOJA 12345678901" _
      (by rfl) (by rfl) (Or.inr (Or.inl rfl)) (by rfl) (by rfl) (by rfl),
   claim_C5.2.2.2.2.2.1 [("correio_eletronico", Value.vstr "a@b.c"),
      ("opcao_pelo_simples", Value.vstr "0"),
      ("nome_fantasia", Value.vstr "LOJA 12345678901"),
      ("opcao_pelo_mei", Value.vstr "S"),
      ("razao_social", Value.vstr "FALANO DE TAL 12345678901"),
      ("cnpj", Value.vstr "123")] "a@b.c" (Value.vstr "0") "LOJA 12345678901"
      "FALANO DE TAL 12345678901" "12345678901" "FALANO DE TAL" _
      (by rfl) (by rfl) (Or.inr (Or.inl rfl)) (by rfl) (by rfl) (by rfl) (by rfl)
      (by rfl) (by rfl) (by rfl),
   claim_C5.2.2.2.2.2.2 [("correio_eletronico", Value.vstr "a@b.c"),
      ("opcao_pelo_simples", Value.vstr "0"),
      ("nome_fantasia", Value.vstr "LOJA 12345678901"),
      ("opcao_pelo_mei", Value.vstr "S"),
      ("razao_social", Value.vstr "FALANO DE TAL 12345678901"),
      ("cnpj", Value.vstr "123")] "a@b.c" (Value.vstr "0") "LOJA 12345678901"
      "12345678901" "LOJA" _
      (by rfl) (by rfl) (Or.inr (Or.inl rfl)) (by rfl) (by rfl) (by decide) (by decide)
      (by rfl) (by rfl) (by rfl) (by rfl)⟩

/-! ## Claim C9: partiality of the company-name cleanup -/

/-- C9: the company-name cleanup is partial — `clear_company_name` raises
an `IndexError` when popping the CPF tokens empties the word list (input
`"CPF 12345678901"`), and `transform_empresa` raises an `IndexError` for a
MEI-enrolled record whose legal-name field is empty or whitespace, because
`row["razao_social"].split()[-1]` indexes an empty token list; neither is a
`ParseFailure` nor one of the documented business-rule `ValueError`s. -/
theorem claim_C9 :
    clear_company_name "CPF 12345678901" = Except.error TErr.indexError ∧
    (∀ (row : Row) (em : String) (sv : Value) (nfs rs : String),
      getV row "correio_eletronico" = some (.vstr em) →
      getV row "opcao_pelo_simples" = some sv →
      (sv = .vstr "" ∨ sv = .vstr "0" ∨ sv = .vstr "6" ∨ sv = .vstr "8" ∨
        sv = .vstr "5" ∨ sv = .vstr "7") →
      getV row "nome_fantasia" = some (.vstr nfs) →
      getV row "opcao_pelo_mei" = some (.vstr "S") →
      getV row "razao_social" = some (.vstr rs) →
      pySplit rs = [] →
      transform_empresa row = Except.error TErr.indexError) := by
  constructor
  · rfl
  · intro row em sv nfs rs he hs hsv hn hm hr hsplit
    rw [empresa_spec row em sv nfs _ he hs hn hm]
    rcases hsv with rfl | rfl | rfl | rfl | rfl | rfl <;>
      by_cases hz : pyZeroSet nfs <;>
        simp [empresaModel, empresaModelTail, empresaMeiBranch, getE, hz, hr, hsplit,
          pyLast, getV_setV, asStr, Bind.bind, Except.bind, exceptBind_assoc, pure,
          Except.pure]

/-- C9 (witness): the theorem applied to a concrete MEI-enrolled company
record with an empty legal name. -/
theorem claim_C9_witness :
    clear_company_name "CPF 12345678901" = Except.error TErr.indexError ∧
    transform_empresa [("correio_eletronico", Value.vstr "a@b.c"),
      ("opcao_pelo_simples", Value.vstr "0"), ("nome_fantasia", Value.vstr "LOJA"),
      ("opcao_pelo_mei", Value.vstr "S"), ("razao_social", Value.vstr ""),
      ("cnpj", Value.vstr "123")] = Except.error TErr.indexError :=
  ⟨claim_C9.1,
   claim_C9.2 [("correio_eletronico", Value.vstr "a@b.c"),
      ("opcao_pelo_simples", Value.vstr "0"), ("nome_fantasia", Value.vstr "LOJA"),
      ("opcao_pelo_mei", Value.vstr "S"), ("razao_social", Value.vstr ""),
      ("cnpj", Value.vstr "123")] "a@b.c" (Value.vstr "0") "LOJA" ""
      (by rfl) (by rfl) (Or.inr (Or.inl rfl)) (by rfl) (by rfl) (by rfl) (by rfl)⟩

/-! ## Helper lemmas on decoder totality -/

theorem pySlice_of_len_le (L : String) (a b : Nat) (h : L.length ≤ a) :
    pySlice L a b = "" := by
  obtain ⟨x⟩ := L
  have hx : x.length ≤ a := h
  show String.mk ((x.drop a).take (b - a)) = ""
  rw [List.drop_eq_nil_of_le hx, List.take_nil]

theorem replaceCtl_append (l extra : String) :
    replaceCtl (l ++ extra) = replaceCtl l ++ replaceCtl extra := by
  obtain ⟨a⟩ := l
  obtain ⟨b⟩ := extra
  show String.mk ((a ++ b).map _) = String.mk (a.map _ ++ b.map _)
  rw [List.map_append]

theorem replaceCtl_length (s : String) : (replaceCtl s).length = s.length := by
  obtain ⟨a⟩ := s
  show (a.map _).length = a.length
  rw [List.length_map]

theorem pySlice_append_left (x y : List Char) (a b : Nat) (hb : b ≤ x.length) :
    pySlice (String.mk (x ++ y)) a b = pySlice (String.mk x) a b := by
  show String.mk (((x ++ y).drop a).take (b - a)) = String.mk ((x.drop a).take (b - a))
  by_cases ha : a ≤ x.length
  · rw [List.drop_append_of_le_length ha]
    congr 1
    rw [List.take_append_of_le_length]
    rw [List.length_drop]
    omega
  · have hxa : x.length ≤ a := Nat.le_of_not_le ha
    have hba : b - a = 0 := Nat.sub_eq_zero_of_le (Nat.le_trans hb hxa)
    rw [hba]
    rfl

theorem procField_benign_ok (f : FieldDef) (hb : benignField f) (v : String) :
    ∃ o, procField f v = Except.ok o := by
  obtain ⟨h1, h2, h3, h4⟩ := hb
  rw [procField, if_neg h1]
  by_cases ht : (f.field_name = "tipo_de_registro" ∨ f.field_name = "tipo_do_registro")
  · rw [if_pos ht]
    exact ⟨none, rfl⟩
  · rw [if_neg ht, if_neg (show ¬(f.field_name = "fim" ∨ f.field_name = "fim_registro" ∨
      f.field_name = "fim_de_registro") from by simpa [isFimName] using h2)]
    by_cases hi : (f.field_name = "indicador_full_diario" ∨
        f.field_name = "tipo_atualizacao" ∨ f.field_name = "tipo_de_atualizacao")
    · rw [if_pos hi]
      exact ⟨none, rfl⟩
    · rw [if_neg hi,
        if_neg (show ¬(pyStartsWith f.field_name "data_" = true ∧ v ≠ "") from by simp [h3]),
        if_neg (show ¬(f.type = "N" ∧ ¬(v.toList.contains '*' = true)) from
          fun hc => h4 hc.1)]
      exact ⟨some (.vstr v), rfl⟩

theorem procField_empty_ok (f : FieldDef) (h2 : ¬isFimName f.field_name) :
    ∃ o, procField f "" = Except.ok o := by
  rw [procField]
  by_cases h1 : f.field_name = "filler"
  · rw [if_pos h1, if_pos (show pyStrip "" = "" ∨ pyStrip "" = "9999999999999999" from
      Or.inl rfl)]
    exact ⟨none, rfl⟩
  · rw [if_neg h1]
    by_cases ht : (f.field_name = "tipo_de_registro" ∨ f.field_name = "tipo_do_registro")
    · rw [if_pos ht]
      exact ⟨none, rfl⟩
    · rw [if_neg ht, if_neg (show ¬(f.field_name = "fim" ∨ f.field_name = "fim_registro" ∨
        f.field_name = "fim_de_registro") from by simpa [isFimName] using h2)]
      by_cases hi : (f.field_name = "indicador_full_diario" ∨
          f.field_name = "tipo_atualizacao" ∨ f.field_name = "tipo_de_atualizacao")
      · rw [if_pos hi]
        exact ⟨none, rfl⟩
      · rw [if_neg hi, if_neg (show ¬(pyStartsWith f.field_name "data_" = true ∧
          ("" : String) ≠ "") from by simp)]
        by_cases hn : (f.type = "N" ∧ ¬(("" : String).toList.contains '*' = true))
        · rw [if_pos hn, if_pos rfl]
          exact ⟨some .vnull, rfl⟩
        · rw [if_neg hn]
          exact ⟨some (.vstr ""), rfl⟩

theorem procField_fim_empty (f : FieldDef) (hf : isFimName f.field_name) :
    procField f "" = Except.error "Wrong end" := by
  have h1 : f.field_name ≠ "filler" := by
    rcases hf with h | h | h <;> simp [h]
  have ht : ¬(f.field_name = "tipo_de_registro" ∨ f.field_name = "tipo_do_registro") := by
    rcases hf with h | h | h <;> simp [h]
  rw [procField, if_neg h1, if_neg ht, if_pos (by simpa [isFimName] using hf),
    if_neg (by decide : ¬(pyStrip "" = "F"))]

theorem parseFields_ok_congr : ∀ (header : List FieldDef) (L1 L2 : String) (acc : Row),
    (∀ f ∈ header, pyStrip (pySlice L1 f.start_index f.end_index) =
      pyStrip (pySlice L2 f.start_index f.end_index)) →
    ∀ r, (parseFields header L1 acc = Except.ok r ↔ parseFields header L2 acc = Except.ok r) := by
  intro header
  induction header with
  | nil =>
    intro L1 L2 acc _ r
    rw [parseFields, parseFields]
  | cons f rest ih =>
    intro L1 L2 acc hf r
    rw [parseFields, parseFields, hf f (List.mem_cons_self _ _)]
    rcases hp : procField f (pyStrip (pySlice L2 f.start_index f.end_index)) with e | o
    · simp
    · match o with
      | none => exact ih L1 L2 acc (fun g hg => hf g (List.mem_cons_of_mem _ hg)) r
      | some v =>
        exact ih L1 L2 (setV acc f.field_name v)
          (fun g hg => hf g (List.mem_cons_of_mem _ hg)) r

theorem parseFields_wrong_end : ∀ (pre : List FieldDef) (f : FieldDef)
    (post : List FieldDef) (L : String) (acc : Row),
    (∀ g ∈ pre, L.length ≤ g.start_index ∨ benignField g) →
    (∀ g ∈ pre, ¬isFimName g.field_name) →
    isFimName f.field_name → L.length ≤ f.start_index →
    parseFields (pre ++ f :: post) L acc = Except.error ⟨L, "Wrong end"⟩ := by
  intro pre
  induction pre with
  | nil =>
    intro f post L acc _ _ hf hlen
    rw [List.nil_append, parseFields]
    have hval : pyStrip (pySlice L f.start_index f.end_index) = "" := by
      rw [pySlice_of_len_le L _ _ hlen]
      rfl
    rw [hval, procField_fim_empty f hf]
  | cons g pre ih =>
    intro f post L acc hok hnf hf hlen
    rw [List.cons_append, parseFields]
    have hg := hok g (List.mem_cons_self _ _)
    have hgf := hnf g (List.mem_cons_self _ _)
    have hrest1 : ∀ g' ∈ pre, L.length ≤ g'.start_index ∨ benignField g' :=
      fun g' hg' => hok g' (List.mem_cons_of_mem _ hg')
    have hrest2 : ∀ g' ∈ pre, ¬isFimName g'.field_name :=
      fun g' hg' => hnf g' (List.mem_cons_of_mem _ hg')
    rcases hg with hshort | hben
    · have hval : pyStrip (pySlice L g.start_index g.end_index) = "" := by
        rw [pySlice_of_len_le L _ _ hshort]
        rfl
      obtain ⟨o, ho⟩ := procField_empty_ok g hgf
      rw [hval, ho]
      match o with
      | none => exact ih f post L acc hrest1 hrest2 hf hlen
      | some v => exact ih f post L (setV acc g.field_name v) hrest1 hrest2 hf hlen
    · obtain ⟨o, ho⟩ := procField_benign_ok g hben _
      rw [ho]
      match o with
      | none => exact ih f post L acc hrest1 hrest2 hf hlen
      | some v => exact ih f post L (setV acc g.field_name v) hrest1 hrest2 hf hlen

/-! ## Claim C10: the decoder is total up to ParseFailure -/

/-- C10: for every layout and line the decoder yields a decoded record or a
`ParsingError` and nothing else; out-of-range slices yield the empty string
(a line ending at or before an end-marker field, with every earlier field
out of range or benign, is rejected as "Wrong end"); an empty numeric field
decodes to null; and characters beyond every field's end index cannot
change a successful decode. -/
theorem claim_C10 :
    (∀ (header : List FieldDef) (line : String),
      (∃ r, parse_row header line = Except.ok r) ∨
      (∃ e, parse_row header line = Except.error e)) ∧
    (∀ (L : String) (a b : Nat), L.length ≤ a → pySlice L a b = "") ∧
    (∀ (header : List FieldDef) (line extra : String) (r : Row),
      (∀ f ∈ header, f.end_index ≤ line.length) →
      (parse_row header (line ++ extra) = Except.ok r ↔
        parse_row header line = Except.ok r)) ∧
    (∀ f : FieldDef, f.type = "N" → f.field_name ∉ specialNames →
      procField f "" = Except.ok (some .vnull)) ∧
    (∀ (pre : List FieldDef) (f : FieldDef) (post : List FieldDef) (line : String),
      (∀ g ∈ pre, line.length ≤ g.start_index ∨ benignField g) →
      (∀ g ∈ pre, ¬isFimName g.field_name) →
      isFimName f.field_name → line.length ≤ f.start_index →
      parse_row (pre ++ f :: post) line = Except.error ⟨replaceCtl line, "Wrong end"⟩) := by
  refine ⟨?_, ?_, ?_, ?_, ?_⟩
  · intro header line
    rcases h : parse_row header line with e | r
    · exact Or.inr ⟨e, rfl⟩
    · exact Or.inl ⟨r, rfl⟩
  · exact pySlice_of_len_le
  · intro header line extra r hends
    rw [parse_row, parse_row]
    apply parseFields_ok_congr
    intro f hf
    have hb : f.end_index ≤ (replaceCtl line).length := by
      rw [replaceCtl_length]
      exact hends f hf
    have hy : replaceCtl (line ++ extra) =
        String.mk ((replaceCtl line).toList ++ (replaceCtl extra).toList) := by
      rw [replaceCtl_append]
      rfl
    rw [hy, pySlice_append_left (replaceCtl line).toList (replaceCtl extra).toList _ _
      (show f.end_index ≤ (replaceCtl line).toList.length from hb)]
    rfl
  · intro f hN hns
    have h9 : f.field_name ≠ "filler" ∧ f.field_name ≠ "tipo_de_registro" ∧
        f.field_name ≠ "tipo_do_registro" ∧ f.field_name ≠ "fim" ∧
        f.field_name ≠ "fim_registro" ∧ f.field_name ≠ "fim_de_registro" ∧
        f.field_name ≠ "indicador_full_diario" ∧ f.field_name ≠ "tipo_atualizacao" ∧
        f.field_name ≠ "tipo_de_atualizacao" := by
      simpa [specialNames, not_or] using hns
    obtain ⟨n1, n2, n3, n4, n5, n6, n7, n8, n9⟩ := h9
    rw [procField, if_neg n1, if_neg (by simp [n2, n3]), if_neg (by simp [n4, n5, n6]),
      if_neg (by simp [n7, n8, n9]),
      if_neg (show ¬(pyStartsWith f.field_name "data_" = true ∧ ("" : String) ≠ "") from
        by simp),
      if_pos (show f.type = "N" ∧ ¬(("" : String).toList.contains '*' = true) from
        ⟨hN, by decide⟩), if_pos rfl]
  · intro pre f post line hok hnf hf hlen
    rw [parse_row]
    apply parseFields_wrong_end pre f post (replaceCtl line) []
      (fun g hg => by rw [replaceCtl_length]; exact hok g hg)
      hnf hf
    rw [replaceCtl_length]
    exact hlen

/-- C10 (witness): the theorem applied at concrete inputs: totality on a
sample layout and line, an out-of-range slice, suffix irrelevance on a
one-field layout, an empty numeric field, and a truncated line rejected as
"Wrong end". -/
theorem claim_C10_witness :
    ((∃ r, parse_row [⟨"nome", "A", 0, 2⟩] "ab" = Except.ok r) ∨
      (∃ e, parse_row [⟨"nome", "A", 0, 2⟩] "ab" = Except.error e)) ∧
    pySlice "ab" 5 7 = "" ∧
    (parse_row [⟨"nome", "A", 0, 2⟩] ("ab" ++ "cd") =
        Except.ok [("nome", Value.vstr "ab")] ↔
      parse_row [⟨"nome", "A", 0, 2⟩] "ab" = Except.ok [("nome", Value.vstr "ab")]) ∧
    procField ⟨"capital", "N", 2, 10⟩ "" = Except.ok (some .vnull) ∧
    parse_row [⟨"nome", "A", 0, 2⟩, ⟨"fim", "A", 2, 3⟩] "ab" =
      Except.error ⟨replaceCtl "ab", "Wrong end"⟩ :=
  ⟨claim_C10.1 [⟨"nome", "A", 0, 2⟩] "ab",
   claim_C10.2.1 "ab" 5 7 (by decide),
   claim_C10.2.2.1 [⟨"nome", "A", 0, 2⟩] "ab" "cd" [("nome", Value.vstr "ab")] (by decide),
   claim_C10.2.2.2.1 ⟨"capital", "N", 2, 10⟩ (by rfl) (by decide),
   claim_C10.2.2.2.2 [⟨"nome", "A", 0, 2⟩] ⟨"fim", "A", 2, 3⟩ [] "ab"
     (by intro g hg; simp at hg; subst hg; right; decide)
     (by intro g hg; simp at hg; subst hg; decide) (by decide) (by decide)⟩

end SociosBrasil
